import Mathlib

/-!
Shallow embedding of the Kifaru booking platform's pricing-and-availability
core (Django app under `server/booking`, plus the pricing catalog model in
`server/properties` and the Paystack webhook handler in `server/payment`).

Conventions:
* Dates are modelled as `Int` day numbers; a Django `DateField` subtraction
  `(check_out - check_in).days` becomes plain integer subtraction.
* `DecimalField` money values are modelled as `ℚ`.
* Python truthiness of optional values is modelled explicitly: `None`, `0`,
  `Decimal('0')` and `''` are falsy (`truthyNat`, `truthyQ`, `truthyStr`).
* Django querysets over a table become `List.filter` over a list of rows;
  `.exists()` becomes non-emptiness, `.aggregate(Min/Max)` becomes an
  optional fold, and `.order_by('number_of_guests').first()` follows
  PostgreSQL semantics (the configured backend in `core/settings.py`):
  ascending order with NULLs last.
* The external `phonenumbers` library is modelled as an oracle parameter
  `phoneInfo : String → Option (Bool × Option String)`: `none` models a
  `NumberParseException`, `some (valid, country)` models a successful parse
  with validity flag and geocoder country description.
-/

namespace Kifaru

/-! ## Enumerations (model `choices` on the Django fields) -/

inductive GuestType
  | international
  | local
  | all
deriving DecidableEq, Repr

inductive StayType
  | short_term
  | long_term
  | weekly
deriving DecidableEq, Repr

inductive AccType
  | master_bedroom
  | full_apartment
deriving DecidableEq, Repr

inductive BookingStatus
  | pending
  | confirmed
  | cancelled
  | completed
deriving DecidableEq, Repr

/-! ## Python truthiness helpers -/

def truthyNat : Option Nat → Bool
  | none => false
  | some n => n != 0

def truthyQ : Option ℚ → Bool
  | none => false
  | some q => q != 0

def truthyStr : Option String → Bool
  | none => false
  | some s => s != ""

/-! ## Data model -/

/-- Row of `properties.models.Property` (the fields the booking core reads). -/
structure Property where
  id : Nat
  name : String
  country : String
  price : ℚ
  min_nights : Nat
  max_guests : Option Nat
deriving DecidableEq, Repr

/-- Row of `properties.models.PropertyPricing`. -/
structure PropertyPricing where
  property : Nat
  accommodation_type : AccType
  guest_type : GuestType
  stay_type : StayType
  number_of_guests : Option Nat
  min_nights : Nat
  max_nights : Option Nat
  price_per_night : ℚ
  weekly_price : Option ℚ
  includes_breakfast : Bool
  includes_fullboard : Bool
deriving DecidableEq, Repr

/-- Row of `users.models.User` (the fields the booking core reads). -/
structure User where
  phone_number : Option String
  country_of_residence : Option String
deriving DecidableEq, Repr

/-- Row of `booking.models.Booking`.  `guest_type`/`stay_type` are `Option`s
whose `none` models a blank `CharField` (Python-falsy); `total_days = 0`
models the unset `PositiveIntegerField` (Python-falsy).  The
`booking_reference` string is not modelled (it never feeds back into any
decision of the core). -/
structure Booking where
  id : Nat
  user : Option User
  property : Nat
  status : BookingStatus
  accommodation_type : AccType
  guest_type : Option GuestType
  stay_type : Option StayType
  check_in : Int
  check_out : Int
  number_of_guests : Nat
  number_of_adults : Nat
  number_of_children : Nat
  total_days : Nat
  phone : String
  selected_pricing : Option PropertyPricing
  total_amount : ℚ
  includes_breakfast : Bool
  includes_fullboard : Bool
deriving DecidableEq, Repr

/-- Row of `booking.models.BlockedDate`. -/
structure BlockedDate where
  property : Nat
  start_date : Int
  end_date : Int
deriving DecidableEq, Repr

/-! ## Duration classification

The same stay-type determination appears verbatim at three code sites; each
is embedded as its own definition so their agreement is a theorem, not an
assumption. -/

/-- `PropertyPricing.objects.filter(property=…, accommodation_type=…,
stay_type='weekly').exists()` — shared by all three classification sites. -/
def hasWeeklyPricing (cat : List PropertyPricing) (prop : Nat) (acc : AccType) : Bool :=
  cat.any fun r =>
    r.property == prop && r.accommodation_type == acc && r.stay_type == StayType.weekly

/-- Stay-type determination in `CalculatePriceView.get` (booking/views.py 217-234). -/
def stayTypeView (has_weekly_pricing : Bool) (total_days : Nat) : StayType :=
  if total_days % 7 == 0 && has_weekly_pricing then StayType.weekly
  else if 10 ≤ total_days then StayType.long_term
  else if total_days < 7 then StayType.short_term
  else StayType.short_term

/-- Stay-type determination in `BookingCreateRequestSerializer.validate`
(booking/serializers.py 204-222). -/
def stayTypeSerializer (has_weekly_pricing : Bool) (total_nights : Nat) : StayType :=
  if total_nights % 7 == 0 && has_weekly_pricing then StayType.weekly
  else if 10 ≤ total_nights then StayType.long_term
  else if total_nights < 7 then StayType.short_term
  else StayType.short_term

/-- Stay-type determination in `Booking.save` (booking/models.py 100-118),
the branch taken when the booking has a property (the `property` relation is
non-nullable, so the property-less fallback at models.py 119-126 is dead
code on every persisted row). -/
def stayTypeModelSave (has_weekly_pricing : Bool) (total_days : Nat) : StayType :=
  if total_days % 7 == 0 && has_weekly_pricing then StayType.weekly
  else if 10 ≤ total_days then StayType.long_term
  else if total_days < 7 then StayType.short_term
  else StayType.short_term

/-! ## Total-amount computation -/

/-- Total-amount computation shared by `CalculatePriceView.get`
(booking/views.py 534-540) and `Booking.save` (booking/models.py 201-209):
`if selected_pricing.weekly_price and total_days % 7 == 0` uses the weekly
rate times the number of weeks, otherwise the nightly rate times the number
of nights.  Note the Python truthiness test: a stored `Decimal('0')` weekly
price is falsy and routes to the nightly branch. -/
def computeTotalAmount (p : PropertyPricing) (total_days : Nat) : ℚ :=
  if truthyQ p.weekly_price && total_days % 7 == 0 then
    p.weekly_price.getD 0 * (total_days / 7 : Nat)
  else
    p.price_per_night * total_days

/-! ## Pricing resolver: candidate query and occupancy selection -/

/-- The records of the catalog for one (property, accommodation_type) pair,
i.e. `PropertyPricing.objects.filter(property=…, accommodation_type=…)`. -/
def recsForAcc (cat : List PropertyPricing) (prop : Nat) (acc : AccType) :
    List PropertyPricing :=
  cat.filter fun r => r.property == prop && r.accommodation_type == acc

/-- One guest-tier-specific candidate query (booking/views.py 279-287 resp.
291-299): match on property, accommodation type, guest tier, stay type,
`min_nights <= total_days` and (`max_nights` null or `>= total_days`). -/
def pricingQueryFor (cat : List PropertyPricing) (prop : Nat) (acc : AccType)
    (g : GuestType) (st : StayType) (total_days : Nat) : List PropertyPricing :=
  cat.filter fun r =>
    r.property == prop && r.accommodation_type == acc && r.guest_type == g &&
      r.stay_type == st && decide (r.min_nights ≤ total_days) &&
      (r.max_nights == none || decide (total_days ≤ r.max_nights.getD 0))

/-- The two-step candidate query of `CalculatePriceView.get` (and of
`BookingCreateRequestSerializer.validate` and `Booking.save`): the
guest-tier-specific query first, retried with the wildcard tier `'all'`
when it comes back empty. -/
def pricingQuery (cat : List PropertyPricing) (prop : Nat) (acc : AccType)
    (g : GuestType) (st : StayType) (total_days : Nat) : List PropertyPricing :=
  let q := pricingQueryFor cat prop acc g st total_days
  if q.isEmpty then pricingQueryFor cat prop acc GuestType.all st total_days else q

/-- Strict comparison on occupancy capacity under PostgreSQL ascending order:
a non-null capacity sorts before null (NULLs last), capacities by value. -/
def capBefore (a b : PropertyPricing) : Bool :=
  match a.number_of_guests, b.number_of_guests with
  | some ca, some cb => ca < cb
  | some _, none => true
  | none, some _ => false
  | none, none => false

/-- `queryset.order_by('number_of_guests').first()` under PostgreSQL:
the row with the smallest non-null capacity, a null-capacity row only when
no non-null-capacity row is present, `none` on an empty queryset. -/
def orderByCapacityFirst : List PropertyPricing → Option PropertyPricing
  | [] => none
  | r :: rs => some (rs.foldl (fun best x => if capBefore x best then x else best) r)

/-- `aggregate(Max('number_of_guests'))` — maximum over the non-null
capacities, `none` when every row's capacity is null or the set is empty. -/
def maxCapacityAgg (l : List PropertyPricing) : Option Nat :=
  (l.filterMap (·.number_of_guests)).foldl
    (fun acc c => match acc with | none => some c | some m => some (max m c)) none

/-- `aggregate(Min('min_nights'))` over a list of records. -/
def minNightsAgg (l : List PropertyPricing) : Option Nat :=
  l.foldl (fun acc r =>
    match acc with | none => some r.min_nights | some m => some (min m r.min_nights)) none

/-- `exclude(max_nights__isnull=True).aggregate(Max('max_nights'))`. -/
def maxNightsAgg (l : List PropertyPricing) : Option Nat :=
  (l.filterMap (·.max_nights)).foldl
    (fun acc c => match acc with | none => some c | some m => some (max m c)) none

/-- Outcome of the occupancy-aware selection step of `CalculatePriceView.get`. -/
inductive SelectOutcome
  | selected (p : PropertyPricing)
  | capacityExceeded (maxCap : Nat)
  | noCandidate
deriving DecidableEq, Repr

/-- Occupancy-aware selection in `CalculatePriceView.get` (booking/views.py
301-347).  With a guest count: keep candidates whose capacity is null or
`>= guest_count`, take the first under `order_by('number_of_guests')`; when
none survives, report `guest_capacity_exceeded` if the count exceeds the
aggregate maximum capacity, otherwise fall through with no candidate.
Without a guest count: prefer a null-capacity candidate, else any. -/
def selectPricing (q : List PropertyPricing) (guest_count : Option Nat) : SelectOutcome :=
  if q.isEmpty then SelectOutcome.noCandidate
  else
    match guest_count with
    | some n =>
        let survivors := q.filter fun r =>
          r.number_of_guests == none || decide (n ≤ r.number_of_guests.getD 0)
        match orderByCapacityFirst survivors with
        | some p => SelectOutcome.selected p
        | none =>
            match maxCapacityAgg q with
            | some m =>
                if m != 0 && m < n then SelectOutcome.capacityExceeded m
                else SelectOutcome.noCandidate
            | none => SelectOutcome.noCandidate
    | none =>
        match (q.filter fun r => r.number_of_guests == none).head? with
        | some p => SelectOutcome.selected p
        | none =>
            match q.head? with
            | some p => SelectOutcome.selected p
            | none => SelectOutcome.noCandidate

/-! ## Pricing resolver: rejection diagnostics -/

inductive PricingError
  | accommodation_unavailable
  | minimum_nights_not_met
  | maximum_nights_exceeded
  | invalid_stay_duration
  | guest_type_not_supported
  | guest_capacity_exceeded
  | pricing_not_available
deriving DecidableEq, Repr

/-- The ordered diagnostic cascade of `CalculatePriceView.get`
(booking/views.py 349-532), entered when no pricing record was selected:

1. no record at all for the accommodation type → `accommodation_unavailable`;
2. `aggregate(Min('min_nights'))` truthy and above `total_days`
   → `minimum_nights_not_met`;
3. a truthy bounded maximum below `total_days` with no unlimited record
   → `maximum_nights_exceeded`;
4. the computed stay type absent from the stay types on offer
   → `invalid_stay_duration`;
5. no wildcard record and no record for the guest tier
   → `guest_type_not_supported`;
6. otherwise the generic `pricing_not_available`.

`BookingCreateRequestSerializer.validate` (booking/serializers.py 301-467)
raises the same diagnostics in the same order. -/
def rejectionDiagnostic (cat : List PropertyPricing) (prop : Nat) (acc : AccType)
    (g : GuestType) (st : StayType) (total_days : Nat) : PricingError :=
  let recs := recsForAcc cat prop acc
  if recs.isEmpty then PricingError.accommodation_unavailable
  else
    let minReq := minNightsAgg recs
    if truthyNat minReq && decide (total_days < minReq.getD 0) then
      PricingError.minimum_nights_not_met
    else
      let maxAllowed := maxNightsAgg (recs.filter fun r => decide (r.min_nights ≤ total_days))
      let hasUnlimited := recs.any fun r => r.max_nights == none
      if truthyNat maxAllowed && !hasUnlimited && decide (maxAllowed.getD 0 < total_days) then
        PricingError.maximum_nights_exceeded
      else
        let stays := recs.map (·.stay_type)
        if !stays.isEmpty && !(stays.contains st) then
          PricingError.invalid_stay_duration
        else
          if !(recs.any fun r => r.guest_type == GuestType.all) then
            if !(recs.any fun r => r.guest_type == g) then
              PricingError.guest_type_not_supported
            else PricingError.pricing_not_available
          else PricingError.pricing_not_available

/-! ## Availability guard (`PropertyAvailabilityView.get`, booking/views.py 698-819) -/

/-- A booking counts against availability iff its status is `pending` or
`confirmed` (`status__in=['pending', 'confirmed']`). -/
def activeStatus (b : Booking) : Bool :=
  b.status == BookingStatus.pending || b.status == BookingStatus.confirmed

/-- The strict half-open interval overlap used by every conflict query:
`check_in__lt=check_out, check_out__gt=check_in`. -/
def strictOverlap (a1 a2 b1 b2 : Int) : Bool :=
  b1 < a2 && a1 < b2

/-- `PropertyAvailabilityView._get_date_range` (booking/views.py 812-819):
the dates from `start_date` (inclusive) to `end_date` (exclusive). -/
def getDateRange (start_date end_date : Int) : List Int :=
  (List.range (end_date - start_date).toNat).map fun i : Nat => start_date + (i : Int)

structure AvailabilityReport where
  is_available : Bool
  total_nights : Int
  conflicting_bookings : List Booking
  blocked_dates : List BlockedDate
  buffer_conflicts : List Booking
  unavailable_dates : List Int
deriving Repr

/-- `PropertyAvailabilityView.get` (booking/views.py 713-804): the three
conflict queries, the availability verdict, and the exploded set of
unavailable dates (overlapping bookings and blocked ranges clipped to the
query window; buffer conflicts contribute no dates). -/
def checkAvailability (bookings : List Booking) (blocked : List BlockedDate)
    (prop : Nat) (check_in check_out : Int) : AvailabilityReport :=
  let overlapping := bookings.filter fun b =>
    b.property == prop && activeStatus b &&
      decide (b.check_in < check_out) && decide (check_in < b.check_out)
  let blockedHits := blocked.filter fun r =>
    r.property == prop &&
      decide (r.start_date < check_out) && decide (check_in < r.end_date)
  let bufferHits := bookings.filter fun b =>
    b.property == prop && activeStatus b && b.check_out == check_in
  { is_available := overlapping.isEmpty && blockedHits.isEmpty && bufferHits.isEmpty
    total_nights := check_out - check_in
    conflicting_bookings := overlapping
    blocked_dates := blockedHits
    buffer_conflicts := bufferHits
    unavailable_dates :=
      (overlapping.map fun b =>
        getDateRange (max check_in b.check_in) (min check_out b.check_out)).flatten ++
      (blockedHits.map fun r =>
        getDateRange (max check_in r.start_date) (min check_out r.end_date)).flatten }

/-! ## Payment-completion webhook (`PaystackWebhookView.post`, payment/views.py 269-292) -/

inductive PaymentStatus
  | payPending
  | processing
  | completed
  | failed
  | refunded
deriving DecidableEq, Repr

/-- The joint state of one payment and its associated booking's status. -/
structure PaymentState where
  payment_status : PaymentStatus
  transaction_id : Option Nat
  completed_at : Option Int
  booking_status : BookingStatus
deriving DecidableEq, Repr

/-- `charge.success` handling: only when the payment is not already
`completed` does the handler mark it completed, stamp the completion time
and transaction id, and confirm the booking. -/
def processChargeSuccess (now : Int) (tid : Option Nat) (st : PaymentState) : PaymentState :=
  if st.payment_status != PaymentStatus.completed then
    { payment_status := PaymentStatus.completed
      transaction_id := tid
      completed_at := some now
      booking_status := BookingStatus.confirmed }
  else st

/-! ## Booking transaction (`BookingCreateRequestSerializer` + `Booking.save`) -/

/-- The writable fields of `BookingCreateRequestSerializer` (serializers.py
65-72).  Note `stay_type` and `guest_type` are not among them. -/
structure BookingRequest where
  property : Nat
  accommodation_type : AccType
  check_in : Int
  check_out : Int
  number_of_guests : Option Nat
  number_of_adults : Option Nat
  number_of_children : Option Nat
  full_name : Option String
  email : Option String
  phone : Option String
  dog_included : Bool
deriving DecidableEq, Repr

inductive RejectReason
  | missing_full_name
  | missing_email
  | missing_phone
  | missing_profile_phone
  | guest_numbers_mismatch
  | property_capacity_exceeded
  | dog_not_allowed
  | invalid_date_order
  | past_check_in
  | below_property_min_nights
  | date_conflict
  | blocked_conflict
  | buffer_conflict
  | invalid_phone
  | accommodation_capacity_exceeded
  | pricing (e : PricingError)
deriving DecidableEq, Repr

/-- Occupancy arithmetic check of `BookingCreateRequestSerializer.validate`
(serializers.py 110-116): `if number_of_adults and number_of_children:` then
reject when `number_of_adults + number_of_children != number_of_guests`.
Python truthiness: a count of `0` (or an absent count) skips the check, and
an absent total compares unequal to any `int` sum. -/
def guestNumbersMismatch (adults children total : Option Nat) : Bool :=
  truthyNat adults && truthyNat children &&
    (match total with
     | none => true
     | some t => adults.getD 0 + children.getD 0 != t)

/-- `'North-Sea' in property_obj.name` (serializers.py 128). -/
def nameHasNorthSea (name : String) : Bool :=
  (name.splitOn "North-Sea").length != 1

/-- Guest-tier fallback from the phone number in
`BookingCreateRequestSerializer.validate` (serializers.py 230-250): default
`international`; a truthy phone must parse and be valid, and a truthy
geocoder country equal (case-insensitively) to the property's country makes
the guest `local`. -/
def serializerGuestTypeFromPhone (phoneInfo : String → Option (Bool × Option String))
    (prop : Property) (phone : Option String) : Except RejectReason GuestType :=
  if truthyStr phone then
    match phoneInfo (phone.getD "") with
    | none => Except.error RejectReason.invalid_phone
    | some (valid, cty) =>
        if !valid then Except.error RejectReason.invalid_phone
        else
          match cty with
          | some c =>
              Except.ok (if c.toLower == prop.country.toLower
                         then GuestType.local else GuestType.international)
          | none => Except.ok GuestType.international
  else Except.ok GuestType.international

/-- Guest-tier determination in `BookingCreateRequestSerializer.validate`
(serializers.py 224-250): an authenticated user with a truthy declared
residence country is classified by country comparison, everyone else by the
phone fallback. -/
def resolveGuestTypeSerializer (phoneInfo : String → Option (Bool × Option String))
    (prop : Property) (ruser : Option User) (phone : Option String) :
    Except RejectReason GuestType :=
  match ruser with
  | some u =>
      if truthyStr u.country_of_residence then
        Except.ok (if (u.country_of_residence.getD "").toLower == prop.country.toLower
                   then GuestType.local else GuestType.international)
      else serializerGuestTypeFromPhone phoneInfo prop phone
  | none => serializerGuestTypeFromPhone phoneInfo prop phone

/-- Guest-booking identity requirement (serializers.py 89-101): `full_name`
is required for unauthenticated requests. -/
def missingFullName (req : BookingRequest) (ruser : Option User) : Bool :=
  ruser.isNone && !truthyStr req.full_name

def missingEmail (req : BookingRequest) (ruser : Option User) : Bool :=
  ruser.isNone && !truthyStr req.email

def missingGuestPhone (req : BookingRequest) (ruser : Option User) : Bool :=
  ruser.isNone && !truthyStr req.phone

/-- Authenticated-user phone requirement (serializers.py 104-108). -/
def missingProfilePhone (req : BookingRequest) (ruser : Option User) : Bool :=
  match ruser with
  | some u => !truthyStr u.phone_number && !truthyStr req.phone
  | none => false

/-- Property-level capacity cap (serializers.py 119-124), guarded by the
truthiness of both `property_obj.max_guests` and `number_of_guests`. -/
def propertyCapacityExceeded (prop : Property) (req : BookingRequest) : Bool :=
  truthyNat prop.max_guests && truthyNat req.number_of_guests &&
    decide (prop.max_guests.getD 0 < req.number_of_guests.getD 0)

/-- Dog allow-list rule (serializers.py 127-131). -/
def dogNotAllowed (prop : Property) (req : BookingRequest) : Bool :=
  req.dog_included && !nameHasNorthSea prop.name

/-- `total_nights = (check_out - check_in).days` (serializers.py 144). -/
def totalNights (req : BookingRequest) : Nat :=
  (req.check_out - req.check_in).toNat

/-- Overlapping-active-booking query of the create path (serializers.py
152-158). -/
def overlapConflict (bookings : List Booking) (prop : Property) (req : BookingRequest) : Bool :=
  bookings.any fun b =>
    b.property == prop.id && activeStatus b &&
      decide (b.check_in < req.check_out) && decide (req.check_in < b.check_out)

/-- Blocked-date query of the create path (serializers.py 171-176). -/
def blockedConflict (blocked : List BlockedDate) (prop : Property) (req : BookingRequest) : Bool :=
  blocked.any fun r =>
    r.property == prop.id &&
      decide (r.start_date < req.check_out) && decide (req.check_in < r.end_date)

/-- Same-day-turnover (buffer) query of the create path (serializers.py
184-199): an active booking checking out on the requested check-in day. -/
def bufferConflict (bookings : List Booking) (prop : Property) (req : BookingRequest) : Bool :=
  bookings.any fun b =>
    b.property == prop.id && activeStatus b && b.check_out == req.check_in

/-- Pricing-existence validation tail of
`BookingCreateRequestSerializer.validate` (serializers.py 201-467):
classify the stay, resolve the guest tier, run the two-step candidate
query, apply the occupancy filter, and raise the capacity error or the
ordered diagnostic cascade when nothing matches. -/
def pricingCheck (cat : List PropertyPricing) (prop : Property)
    (phoneInfo : String → Option (Bool × Option String))
    (req : BookingRequest) (ruser : Option User) : Except RejectReason Unit :=
  match resolveGuestTypeSerializer phoneInfo prop ruser req.phone with
  | Except.error e => Except.error e
  | Except.ok gt =>
      let st := stayTypeSerializer (hasWeeklyPricing cat prop.id req.accommodation_type)
        (totalNights req)
      let q := pricingQuery cat prop.id req.accommodation_type gt st (totalNights req)
      if truthyNat req.number_of_guests then
        let n := req.number_of_guests.getD 0
        let survivors := q.filter fun r =>
          r.number_of_guests == none || decide (n ≤ r.number_of_guests.getD 0)
        if !survivors.isEmpty then Except.ok ()
        else
          let maxCap := maxCapacityAgg (cat.filter fun r =>
            r.property == prop.id && r.accommodation_type == req.accommodation_type &&
              r.stay_type == st)
          if truthyNat maxCap && decide (maxCap.getD 0 < n) then
            Except.error RejectReason.accommodation_capacity_exceeded
          else
            Except.error (RejectReason.pricing
              (rejectionDiagnostic cat prop.id req.accommodation_type gt st (totalNights req)))
      else
        if !q.isEmpty then Except.ok ()
        else
          Except.error (RejectReason.pricing
            (rejectionDiagnostic cat prop.id req.accommodation_type gt st (totalNights req)))

/-- `BookingCreateRequestSerializer.validate` (serializers.py 74-469): the
short-circuiting validation chain, in source order — identity fields,
occupancy arithmetic, property capacity, dog policy, date sanity, overlap /
blocked / buffer conflicts, then the pricing-existence check with its
diagnostic cascade.  `ruser = none` models an unauthenticated request. -/
def validateBookingRequest (cat : List PropertyPricing) (prop : Property)
    (phoneInfo : String → Option (Bool × Option String))
    (bookings : List Booking) (blocked : List BlockedDate)
    (req : BookingRequest) (ruser : Option User) (today : Int) :
    Except RejectReason Unit :=
  if missingFullName req ruser then Except.error RejectReason.missing_full_name
  else if missingEmail req ruser then Except.error RejectReason.missing_email
  else if missingGuestPhone req ruser then Except.error RejectReason.missing_phone
  else if missingProfilePhone req ruser then Except.error RejectReason.missing_profile_phone
  else if guestNumbersMismatch req.number_of_adults req.number_of_children
      req.number_of_guests then Except.error RejectReason.guest_numbers_mismatch
  else if propertyCapacityExceeded prop req then
    Except.error RejectReason.property_capacity_exceeded
  else if dogNotAllowed prop req then Except.error RejectReason.dog_not_allowed
  else if decide (req.check_out ≤ req.check_in) then Except.error RejectReason.invalid_date_order
  else if decide (req.check_in < today) then Except.error RejectReason.past_check_in
  else if decide (totalNights req < prop.min_nights) then
    Except.error RejectReason.below_property_min_nights
  else if overlapConflict bookings prop req then Except.error RejectReason.date_conflict
  else if blockedConflict blocked prop req then Except.error RejectReason.blocked_conflict
  else if bufferConflict bookings prop req then Except.error RejectReason.buffer_conflict
  else pricingCheck cat prop phoneInfo req ruser

/-- The `Booking` instance as `BookingCreateRequestSerializer.create`
(serializers.py 471-491) hands it to the model layer: request fields plus
the model-field defaults — in particular `guest_type='international'`,
`stay_type='short_term'`, `status='pending'`, `number_of_guests=2`,
`number_of_adults=1`, `number_of_children=0`, and unset `total_days` /
`selected_pricing` / `total_amount`. -/
def initialBooking (req : BookingRequest) (ruser : Option User) (newId : Nat) : Booking :=
  { id := newId
    user := ruser
    property := req.property
    status := BookingStatus.pending
    accommodation_type := req.accommodation_type
    guest_type := some GuestType.international
    stay_type := some StayType.short_term
    check_in := req.check_in
    check_out := req.check_out
    number_of_guests := req.number_of_guests.getD 2
    number_of_adults := req.number_of_adults.getD 1
    number_of_children := req.number_of_children.getD 0
    total_days := 0
    phone :=
      match ruser with
      | some u => if truthyStr req.phone then req.phone.getD "" else u.phone_number.getD ""
      | none => req.phone.getD ""
    selected_pricing := none
    total_amount := 0
    includes_breakfast := false
    includes_fullboard := false }

/-- Guest-tier fallback in `Booking.save` (models.py 138-162): a truthy
phone must parse and be valid (else the save raises), a found geocoder
country is compared case-insensitively to the property's country, and every
remaining case defaults to `international`. -/
def modelGuestTypeFallback (phoneInfo : String → Option (Bool × Option String))
    (prop : Property) (phone : String) : Except RejectReason GuestType :=
  if phone != "" then
    match phoneInfo phone with
    | none => Except.error RejectReason.invalid_phone
    | some (valid, cty) =>
        if !valid then Except.error RejectReason.invalid_phone
        else
          match cty with
          | some c =>
              Except.ok (if c.toLower == prop.country.toLower
                         then GuestType.local else GuestType.international)
          | none => Except.ok GuestType.international
  else Except.ok GuestType.international

/-- The pricing query of `Booking.save` (models.py 167-187): like the
serializer's but keyed on the booking's stored (possibly blank) `guest_type`
and `stay_type` fields. -/
def modelPricingQueryFor (cat : List PropertyPricing) (prop : Nat) (acc : AccType)
    (g : Option GuestType) (st : Option StayType) (total_days : Nat) :
    List PropertyPricing :=
  cat.filter fun r =>
    r.property == prop && r.accommodation_type == acc && (some r.guest_type == g) &&
      (some r.stay_type == st) && decide (r.min_nights ≤ total_days) &&
      (r.max_nights == none || decide (total_days ≤ r.max_nights.getD 0))

/-- Pricing resolution of `Booking.save` (models.py 165-199): the
guest-tier query with wildcard retry, the always-applied capacity filter
ordered by capacity (PostgreSQL NULLs last), and the bare `pricing.first()`
fallback when no capacity-compatible row exists. -/
def modelSelectPricing (cat : List PropertyPricing) (b : Booking) (gt : GuestType)
    (st : Option StayType) (total_days : Nat) : Option PropertyPricing :=
  let q1 := modelPricingQueryFor cat b.property b.accommodation_type (some gt) st total_days
  let q := if q1.isEmpty then
      modelPricingQueryFor cat b.property b.accommodation_type (some GuestType.all)
        st total_days
    else q1
  let survivors := q.filter fun r =>
    r.number_of_guests == none || decide (b.number_of_guests ≤ r.number_of_guests.getD 0)
  match orderByCapacityFirst survivors with
  | some p => some p
  | none => q.head?

/-- `total_days` after models.py 96-98: computed from the dates only when
the stored value is falsy (zero/unset). -/
def savedTotalDays (b : Booking) : Nat :=
  match b.total_days with
  | 0 => (b.check_out - b.check_in).toNat
  | Nat.succ k => Nat.succ k

/-- `stay_type` after models.py 100-118: classified only when blank. -/
def savedStayType (cat : List PropertyPricing) (b : Booking) (total_days : Nat) :
    Option StayType :=
  match b.stay_type with
  | some s => some s
  | none =>
      if total_days != 0 then
        some (stayTypeModelSave (hasWeeklyPricing cat b.property b.accommodation_type)
          total_days)
      else none

/-- `guest_type` after models.py 128-162: resolved only when blank, from
the account's residence country when available, else from the phone. -/
def modelResolveGuestType (phoneInfo : String → Option (Bool × Option String))
    (prop : Property) (b : Booking) : Except RejectReason GuestType :=
  match b.guest_type with
  | some g => Except.ok g
  | none =>
      match b.user with
      | some u =>
          if truthyStr u.country_of_residence then
            Except.ok (if (u.country_of_residence.getD "").toLower == prop.country.toLower
                       then GuestType.local else GuestType.international)
          else modelGuestTypeFallback phoneInfo prop b.phone
      | none => modelGuestTypeFallback phoneInfo prop b.phone

/-- `selected_pricing` after models.py 164-199: resolved only when unset. -/
def savedSelectedPricing (cat : List PropertyPricing) (b : Booking) (gt : GuestType)
    (st : Option StayType) (total_days : Nat) : Option PropertyPricing :=
  match b.selected_pricing with
  | some p => some p
  | none => modelSelectPricing cat b gt st total_days

/-- `Booking.save` (models.py 85-218): fill `total_days` when unset,
classify `stay_type` / `guest_type` when blank, resolve `selected_pricing`,
and compute `total_amount` and the meal flags (falling back to the
property's base price when no pricing matched).  Booking-reference
generation (models.py 87-93) is not modelled; it feeds no decision.  The
property-less stay-type fallback (models.py 119-126) is dead code because
the `property` relation is non-nullable. -/
def bookingSave (cat : List PropertyPricing) (prop : Property)
    (phoneInfo : String → Option (Bool × Option String)) (b : Booking) :
    Except RejectReason Booking :=
  match modelResolveGuestType phoneInfo prop b with
  | Except.error e => Except.error e
  | Except.ok gt =>
      let total_days := savedTotalDays b
      let stay_type := savedStayType cat b total_days
      let selected := savedSelectedPricing cat b gt stay_type total_days
      let b' := { b with total_days := total_days, stay_type := stay_type,
                         guest_type := some gt, selected_pricing := selected }
      match selected with
      | some p =>
          if total_days != 0 then
            Except.ok { b' with total_amount := computeTotalAmount p total_days,
                                includes_breakfast := p.includes_breakfast,
                                includes_fullboard := p.includes_fullboard }
          else Except.ok b'
      | none =>
          if total_days != 0 then
            Except.ok { b' with total_amount := prop.price * total_days }
          else Except.ok b'

/-- `create_booking` end to end: `serializer.is_valid` then
`serializer.save()` (validation chain, instance construction with model
defaults, `Booking.save`). -/
def createBooking (cat : List PropertyPricing) (prop : Property)
    (phoneInfo : String → Option (Bool × Option String))
    (bookings : List Booking) (blocked : List BlockedDate)
    (req : BookingRequest) (ruser : Option User) (today : Int) (newId : Nat) :
    Except RejectReason Booking :=
  match validateBookingRequest cat prop phoneInfo bookings blocked req ruser today with
  | Except.error e => Except.error e
  | Except.ok _ => bookingSave cat prop phoneInfo (initialBooking req ruser newId)

/-! ## System state and its state-changing operations -/

structure SysState where
  bookings : List Booking
  blocked : List BlockedDate
  nextId : Nat
deriving Repr

/-- The reservation-state-changing operations reachable through the HTTP
layer: booking creation (`BookingListCreateView.create`), payment
confirmation (`PaystackWebhookView.post` / `PaymentVerifyView`, which set
`booking.status = 'confirmed'`), cancellation (`BookingCancelView.post`),
and the date-changing update (`BookingDetailView` PUT/PATCH through
`BookingSerializer`, whose writable fields include `check_in`/`check_out`
and which declares no object-level validation). -/
inductive Op
  | create (req : BookingRequest) (ruser : Option User) (today : Int)
  | confirmPayment (bid : Nat)
  | cancel (bid : Nat)
  | updateDates (bid : Nat) (check_in check_out : Int)

def applyOp (cat : List PropertyPricing) (propsOf : Nat → Property)
    (phoneInfo : String → Option (Bool × Option String)) (s : SysState) :
    Op → SysState
  | Op.create req ruser today =>
      match createBooking cat (propsOf req.property) phoneInfo s.bookings s.blocked
          req ruser today s.nextId with
      | Except.ok b => { s with bookings := s.bookings ++ [b], nextId := s.nextId + 1 }
      | Except.error _ => s
  | Op.confirmPayment bid =>
      { s with bookings := s.bookings.map fun b =>
          if b.id == bid then { b with status := BookingStatus.confirmed } else b }
  | Op.cancel bid =>
      { s with bookings := s.bookings.map fun b =>
          if b.id == bid && b.status != BookingStatus.cancelled &&
              b.status != BookingStatus.completed then
            { b with status := BookingStatus.cancelled }
          else b }
  | Op.updateDates bid ci co =>
      { s with bookings := s.bookings.map fun b =>
          if b.id == bid then
            match bookingSave cat (propsOf b.property) phoneInfo
                { b with check_in := ci, check_out := co } with
            | Except.ok b' => b'
            | Except.error _ => b
          else b }

/-- The no-double-booking invariant: two reservations with status in
{pending, confirmed} on the same property whose `[check_in, check_out)`
intervals overlap must be the same reservation. -/
def NoDoubleBooking (l : List Booking) : Prop :=
  ∀ a ∈ l, ∀ b ∈ l, activeStatus a → activeStatus b → a.property = b.property →
    a.check_in < b.check_out → b.check_in < a.check_out → a.id = b.id

/-- Bookkeeping well-formedness: booking ids are pairwise distinct and below
the id counter. -/
def WFState (s : SysState) : Prop :=
  s.bookings.Pairwise (fun a b => a.id ≠ b.id) ∧ ∀ b ∈ s.bookings, b.id < s.nextId

/-! ## Theorems -/

/-- C2: duration classification is a pure function of (has_weekly,
total_nights) computing the same tier at all three classification sites
(price preview, booking-creation validation, model persistence), and it
matches the rule table: a positive multiple of 7 with weekly pricing on
offer is `weekly`, otherwise at least 10 nights is `long_term`, fewer than
7 nights is `short_term`, and the 8/9-night leftover falls back to
`short_term`; `has_weekly` is exactly the existence of a weekly record for
the (property, accommodation_type). -/
theorem duration_classification_rule_table (cat : List PropertyPricing) (prop : Nat)
    (acc : AccType) (hw : Bool) (n : Nat) (h1 : 1 ≤ n) :
    (hasWeeklyPricing cat prop acc = true ↔
      ∃ r ∈ cat, r.property = prop ∧ r.accommodation_type = acc ∧
        r.stay_type = StayType.weekly)
  ∧ (stayTypeView hw n = stayTypeSerializer hw n ∧ stayTypeView hw n = stayTypeModelSave hw n)
  ∧ (n % 7 = 0 → hw = true → stayTypeView hw n = StayType.weekly)
  ∧ (¬(n % 7 = 0 ∧ hw = true) → 10 ≤ n → stayTypeView hw n = StayType.long_term)
  ∧ (¬(n % 7 = 0 ∧ hw = true) → n < 7 → stayTypeView hw n = StayType.short_term)
  ∧ ((n = 8 ∨ n = 9) → stayTypeView hw n = StayType.short_term) := by
  refine ⟨?_, ⟨rfl, rfl⟩, ?_, ?_, ?_, ?_⟩
  · simp only [hasWeeklyPricing, List.any_eq_true, Bool.and_eq_true, beq_iff_eq]
    constructor
    · rintro ⟨r, hr, ⟨hp, ha⟩, hs⟩
      exact ⟨r, hr, hp, ha, hs⟩
    · rintro ⟨r, hr, hp, ha, hs⟩
      exact ⟨r, hr, ⟨hp, ha⟩, hs⟩
  · intro hm hhw
    simp [stayTypeView, hm, hhw]
  · intro hnot h10
    have hc : (n % 7 == 0 && hw) = false := by
      cases hw with
      | false => simp
      | true => simpa using fun hmod => hnot ⟨hmod, rfl⟩
    simp [stayTypeView, hc, h10]
  · intro hnot h7
    have hc : (n % 7 == 0 && hw) = false := by
      cases hw with
      | false => simp
      | true => simpa using fun hmod => hnot ⟨hmod, rfl⟩
    have h10 : ¬ 10 ≤ n := by omega
    simp [stayTypeView, hc, h10, h7]
  · rintro (h | h) <;> subst h <;> cases hw <;> rfl

/-- Witness for C2 at has_weekly = true, n = 7. -/
theorem duration_classification_rule_table_witness :
    stayTypeView true 7 = StayType.weekly :=
  (duration_classification_rule_table [] 0 AccType.full_apartment true 7
    (by decide)).2.2.1 rfl rfl

/-- Pricing record with a non-null but zero weekly rate, exhibiting the
Python-truthiness gap in the weekly-rate branch. -/
def zeroWeeklyRecord : PropertyPricing :=
  { property := 1
    accommodation_type := AccType.full_apartment
    guest_type := GuestType.international
    stay_type := StayType.weekly
    number_of_guests := none
    min_nights := 1
    max_nights := none
    price_per_night := 100
    weekly_price := some 0
    includes_breakfast := false
    includes_fullboard := false }

/-- C3 counterexample: for a record whose weekly rate is non-null but zero
and a 7-night (= 7·1) stay, the code charges `nightly_rate * 7 = 700`, not
`weekly_rate * 1 = 0`, because `Decimal('0')` is Python-falsy in
`if selected_pricing.weekly_price and total_days % 7 == 0`. -/
theorem weekly_rate_counterexample :
    zeroWeeklyRecord.weekly_price = some 0 ∧
    computeTotalAmount zeroWeeklyRecord 7 = 700 ∧
    computeTotalAmount zeroWeeklyRecord 7 ≠ 0 * 1 := by
  refine ⟨rfl, ?_, ?_⟩
  · simp [computeTotalAmount, truthyQ, zeroWeeklyRecord]
    norm_num
  · simp [computeTotalAmount, truthyQ, zeroWeeklyRecord]

/-- C3 amended: for a record whose weekly rate is non-null *and non-zero*,
a stay of `7 * k` nights totals `weekly_rate * k`; when the weekly rate is
null or zero, or the night count is not a multiple of 7, the total is
`nightly_rate * total_nights`. -/
theorem weekly_rate_optimization (p : PropertyPricing) (k n : Nat) :
    (∀ w : ℚ, p.weekly_price = some w → w ≠ 0 → n = 7 * k →
        computeTotalAmount p n = w * k)
  ∧ ((truthyQ p.weekly_price = false ∨ n % 7 ≠ 0) →
        computeTotalAmount p n = p.price_per_night * n) := by
  constructor
  · intro w hw hw0 hn
    subst hn
    have ht : truthyQ (some w) = true := by simp [truthyQ, hw0]
    have hm : (7 * k) % 7 = 0 := by omega
    simp [computeTotalAmount, hw, ht, hm, Nat.mul_div_cancel_left k (by norm_num : 0 < 7)]
  · intro h
    rcases h with h | h
    · simp [computeTotalAmount, h]
    · have hm : (n % 7 == 0) = false := by simpa using h
      simp [computeTotalAmount, hm]

/-- Concrete record for the C3 witness: weekly €1200, nightly €200. -/
def weeklyRecord : PropertyPricing :=
  { zeroWeeklyRecord with price_per_night := 200, weekly_price := some 1200 }

/-- Witness for C3 (amended): 7 nights on a €1200-per-week record total
€1200, not €1400. -/
theorem weekly_rate_optimization_witness :
    computeTotalAmount weeklyRecord 7 = 1200 := by
  have h := (weekly_rate_optimization weeklyRecord 1 7).1 1200 rfl (by norm_num) rfl
  simpa using h

/-- C7: replaying the `charge.success` webhook is idempotent — the second
processing is the identity on the (payment, booking-status) state — and the
first processing of a not-yet-completed payment performs the
pending→confirmed transition and completion side effects exactly once. -/
theorem webhook_idempotent (st : PaymentState) (now1 now2 : Int) (t1 t2 : Option Nat) :
    processChargeSuccess now2 t2 (processChargeSuccess now1 t1 st) =
      processChargeSuccess now1 t1 st
  ∧ (st.payment_status ≠ PaymentStatus.completed →
      (processChargeSuccess now1 t1 st).payment_status = PaymentStatus.completed ∧
      (processChargeSuccess now1 t1 st).booking_status = BookingStatus.confirmed ∧
      (processChargeSuccess now1 t1 st).completed_at = some now1 ∧
      (processChargeSuccess now1 t1 st).transaction_id = t1) := by
  constructor
  · by_cases h : st.payment_status = PaymentStatus.completed
    · simp [processChargeSuccess, h]
    · have h' : (st.payment_status != PaymentStatus.completed) = true := by
        simpa using h
      simp [processChargeSuccess, h']
  · intro h
    have h' : (st.payment_status != PaymentStatus.completed) = true := by
      simpa using h
    simp [processChargeSuccess, h']

/-- Witness for C7 on a pending payment with a pending booking. -/
theorem webhook_idempotent_witness :
    processChargeSuccess 1 (some 9)
        (processChargeSuccess 0 (some 9)
          { payment_status := PaymentStatus.payPending
            transaction_id := none
            completed_at := none
            booking_status := BookingStatus.pending }) =
      processChargeSuccess 0 (some 9)
        { payment_status := PaymentStatus.payPending
          transaction_id := none
          completed_at := none
          booking_status := BookingStatus.pending } ∧
    (processChargeSuccess 0 (some 9)
        { payment_status := PaymentStatus.payPending
          transaction_id := none
          completed_at := none
          booking_status := BookingStatus.pending }).booking_status =
      BookingStatus.confirmed :=
  ⟨(webhook_idempotent
      { payment_status := PaymentStatus.payPending
        transaction_id := none
        completed_at := none
        booking_status := BookingStatus.pending } 0 1 (some 9) (some 9)).1,
   ((webhook_idempotent
      { payment_status := PaymentStatus.payPending
        transaction_id := none
        completed_at := none
        booking_status := BookingStatus.pending } 0 1 (some 9) (some 9)).2
      (by decide)).2.1⟩

theorem recsForAcc_eq_nil_iff (cat : List PropertyPricing) (prop : Nat) (acc : AccType) :
    recsForAcc cat prop acc = [] ↔
      ∀ r ∈ cat, r.property = prop → r.accommodation_type ≠ acc := by
  simp [recsForAcc, List.filter_eq_nil_iff, Bool.and_eq_true, beq_iff_eq]

theorem recsForAcc_any_iff (cat : List PropertyPricing) (prop : Nat) (acc : AccType)
    (p : PropertyPricing → Bool) :
    (recsForAcc cat prop acc).any p = true ↔
      ∃ r ∈ cat, r.property = prop ∧ r.accommodation_type = acc ∧ p r = true := by
  simp [recsForAcc, List.any_eq_true, List.mem_filter, Bool.and_eq_true, beq_iff_eq]
  tauto

/-- C4: the rejection cascade returns `accommodation_unavailable` exactly
when no catalog record exists for the (property, accommodation_type) — so
in particular whenever both that and an unsupported guest tier hold, the
accommodation diagnostic wins — and it returns `guest_type_not_supported`
only when records for the accommodation type do exist but none carries the
wildcard tier or the requested guest tier. -/
theorem rejection_priority (cat : List PropertyPricing) (prop : Nat) (acc : AccType)
    (g : GuestType) (st : StayType) (n : Nat) :
    (rejectionDiagnostic cat prop acc g st n = PricingError.accommodation_unavailable ↔
      ∀ r ∈ cat, r.property = prop → r.accommodation_type ≠ acc)
  ∧ (rejectionDiagnostic cat prop acc g st n = PricingError.guest_type_not_supported →
      (∃ r ∈ cat, r.property = prop ∧ r.accommodation_type = acc)
    ∧ (∀ r ∈ cat, r.property = prop → r.accommodation_type = acc →
        r.guest_type ≠ GuestType.all)
    ∧ (∀ r ∈ cat, r.property = prop → r.accommodation_type = acc →
        r.guest_type ≠ g)) := by
  constructor
  · constructor
    · intro h
      rw [← recsForAcc_eq_nil_iff]
      by_contra hne
      have he : (recsForAcc cat prop acc).isEmpty = false := by
        rcases hx : recsForAcc cat prop acc with _ | ⟨a, l⟩
        · exact absurd hx hne
        · simp
      simp only [rejectionDiagnostic, he, Bool.false_eq_true, if_false] at h
      split at h
      · exact PricingError.noConfusion h
      · split at h
        · exact PricingError.noConfusion h
        · split at h
          · exact PricingError.noConfusion h
          · split at h
            · split at h
              · exact PricingError.noConfusion h
              · exact PricingError.noConfusion h
            · exact PricingError.noConfusion h
    · intro h
      have he : (recsForAcc cat prop acc).isEmpty = true := by
        rw [List.isEmpty_iff, recsForAcc_eq_nil_iff]
        exact h
      simp [rejectionDiagnostic, he]
  · intro h
    have hne : ¬ (recsForAcc cat prop acc).isEmpty = true := by
      intro he
      simp [rejectionDiagnostic, he] at h
    simp only [rejectionDiagnostic] at h
    rw [if_neg hne] at h
    refine ⟨?_, ?_⟩
    · rcases hx : recsForAcc cat prop acc with _ | ⟨a, l⟩
      · exact absurd (by simp [hx]) hne
      · have ha : a ∈ recsForAcc cat prop acc := by
          rw [hx]; exact List.mem_cons_self a l
        have hmem : a ∈ cat ∧ a.property = prop ∧ a.accommodation_type = acc := by
          simpa [recsForAcc, List.mem_filter] using ha
        exact ⟨a, hmem.1, hmem.2.1, hmem.2.2⟩
    · split at h
      · exact PricingError.noConfusion h
      · split at h
        · exact PricingError.noConfusion h
        · split at h
          · exact PricingError.noConfusion h
          · split at h
            · split at h
              · rename_i hall hg
                constructor
                · intro r hr hpr har hrall
                  have : (recsForAcc cat prop acc).any
                      (fun r => r.guest_type == GuestType.all) = true := by
                    rw [recsForAcc_any_iff]
                    exact ⟨r, hr, hpr, har, by simp [hrall]⟩
                  simp [this] at hall
                · intro r hr hpr har hrg
                  have : (recsForAcc cat prop acc).any
                      (fun r => r.guest_type == g) = true := by
                    rw [recsForAcc_any_iff]
                    exact ⟨r, hr, hpr, har, by simp [hrg]⟩
                  simp [this] at hg
              · exact PricingError.noConfusion h
            · exact PricingError.noConfusion h

/-- Witness for C4: an empty catalog yields `accommodation_unavailable`. -/
theorem rejection_priority_witness :
    rejectionDiagnostic [] 1 AccType.master_bedroom GuestType.local
        StayType.short_term 3 = PricingError.accommodation_unavailable :=
  (rejection_priority [] 1 AccType.master_bedroom GuestType.local
      StayType.short_term 3).1.mpr (by intro r hr; cases hr)

/-- Sort key realised by `order_by('number_of_guests')` under PostgreSQL:
capacities ascending with NULLs last. -/
def capKey (p : PropertyPricing) : WithTop Nat :=
  match p.number_of_guests with
  | some c => (c : WithTop Nat)
  | none => ⊤

theorem capBefore_iff (a b : PropertyPricing) :
    capBefore a b = true ↔ capKey a < capKey b := by
  cases ha : a.number_of_guests <;> cases hb : b.number_of_guests <;>
    simp [capBefore, capKey, ha, hb]

theorem foldl_minCap_mem (l : List PropertyPricing) (r : PropertyPricing) :
    l.foldl (fun best y => if capBefore y best then y else best) r = r ∨
      l.foldl (fun best y => if capBefore y best then y else best) r ∈ l := by
  induction l generalizing r with
  | nil => exact Or.inl rfl
  | cons y ys ih =>
      simp only [List.foldl_cons]
      rcases ih (if capBefore y r then y else r) with h | h
      · by_cases hc : capBefore y r = true
        · right
          rw [h, if_pos hc]
          exact List.mem_cons_self y ys
        · left
          rw [h, if_neg hc]
      · right
        exact List.mem_cons_of_mem y h

theorem foldl_minCap_min (l : List PropertyPricing) (r : PropertyPricing) :
    ∀ x, (x = r ∨ x ∈ l) →
      capKey (l.foldl (fun best y => if capBefore y best then y else best) r) ≤ capKey x := by
  induction l generalizing r with
  | nil =>
      rintro x (rfl | hx)
      · exact le_refl _
      · cases hx
  | cons y ys ih =>
      rintro x hx
      simp only [List.foldl_cons]
      rcases hx with rfl | hx
      · refine le_trans (ih _ _ (Or.inl rfl)) ?_
        by_cases hc : capBefore y x = true
        · rw [if_pos hc]
          exact le_of_lt ((capBefore_iff _ _).mp hc)
        · rw [if_neg hc]
      · rcases List.mem_cons.mp hx with rfl | hx
        · refine le_trans (ih _ _ (Or.inl rfl)) ?_
          by_cases hc : capBefore x r = true
          · rw [if_pos hc]
          · rw [if_neg hc]
            exact le_of_not_lt (fun hlt => hc ((capBefore_iff _ _).mpr hlt))
        · exact ih _ x (Or.inr hx)

theorem orderByCapacityFirst_mem {l : List PropertyPricing} {p : PropertyPricing}
    (h : orderByCapacityFirst l = some p) : p ∈ l := by
  cases l with
  | nil => cases h
  | cons r rs =>
      simp only [orderByCapacityFirst, Option.some.injEq] at h
      rcases foldl_minCap_mem rs r with h' | h'
      · rw [← h, h']
        exact List.mem_cons_self r rs
      · rw [← h]
        exact List.mem_cons_of_mem _ h'

theorem orderByCapacityFirst_min {l : List PropertyPricing} {p : PropertyPricing}
    (h : orderByCapacityFirst l = some p) : ∀ x ∈ l, capKey p ≤ capKey x := by
  cases l with
  | nil => cases h
  | cons r rs =>
      simp only [orderByCapacityFirst, Option.some.injEq] at h
      intro x hx
      rw [← h]
      rcases List.mem_cons.mp hx with rfl | hx
      · exact foldl_minCap_min rs x x (Or.inl rfl)
      · exact foldl_minCap_min rs r x (Or.inr hx)

theorem orderByCapacityFirst_eq_none {l : List PropertyPricing} :
    orderByCapacityFirst l = none ↔ l = [] := by
  cases l <;> simp [orderByCapacityFirst]

/-- C6 amended: with an occupancy count, the resolver selects the candidate
with the smallest non-null capacity ≥ the requested occupancy when one
exists; when every occupancy-bound candidate is insufficient but a
null-occupancy candidate survives, the null-occupancy candidate is selected
(even though bounded candidates exist); only when neither sufficient-bound
nor null-occupancy candidates exist does it fall through to the
capacity/rejection diagnostics. -/
theorem occupancy_selection (q : List PropertyPricing) (n : Nat) :
    ((∃ r ∈ q, ∃ c, r.number_of_guests = some c ∧ n ≤ c) →
        ∃ p c, selectPricing q (some n) = SelectOutcome.selected p ∧ p ∈ q ∧
          p.number_of_guests = some c ∧ n ≤ c ∧
          ∀ r ∈ q, ∀ c', r.number_of_guests = some c' → n ≤ c' → c ≤ c')
  ∧ ((∀ r ∈ q, ∀ c, r.number_of_guests = some c → c < n) →
        (∃ r ∈ q, r.number_of_guests = none) →
        ∃ p, selectPricing q (some n) = SelectOutcome.selected p ∧ p ∈ q ∧
          p.number_of_guests = none)
  ∧ ((∀ r ∈ q, ∀ c, r.number_of_guests = some c → c < n) →
        (∀ r ∈ q, r.number_of_guests ≠ none) →
        selectPricing q (some n) = SelectOutcome.noCandidate ∨
          ∃ m, selectPricing q (some n) = SelectOutcome.capacityExceeded m) := by
  have hsurv_mem : ∀ r ∈ q,
      (r.number_of_guests == none || decide (n ≤ r.number_of_guests.getD 0)) = true →
      r ∈ q.filter fun r =>
        r.number_of_guests == none || decide (n ≤ r.number_of_guests.getD 0) :=
    fun r hr hp => List.mem_filter.mpr ⟨hr, hp⟩
  refine ⟨?_, ?_, ?_⟩
  · rintro ⟨r, hr, c, hc, hnc⟩
    have hrs : r ∈ q.filter fun r =>
        r.number_of_guests == none || decide (n ≤ r.number_of_guests.getD 0) := by
      refine hsurv_mem r hr ?_
      simp [hc, hnc]
    have hqne : (q.isEmpty) = false := by
      cases q with
      | nil => cases hr
      | cons a l => simp
    obtain ⟨best, hbest⟩ : ∃ p, orderByCapacityFirst (q.filter fun r =>
        r.number_of_guests == none || decide (n ≤ r.number_of_guests.getD 0)) = some p := by
      rcases hord : orderByCapacityFirst (q.filter fun r =>
          r.number_of_guests == none || decide (n ≤ r.number_of_guests.getD 0)) with _ | p
      · rw [orderByCapacityFirst_eq_none] at hord
        rw [hord] at hrs
        cases hrs
      · exact ⟨p, rfl⟩
    have hbest_mem := orderByCapacityFirst_mem hbest
    have hbest_q : best ∈ q := (List.mem_filter.mp hbest_mem).1
    have hbest_pred := (List.mem_filter.mp hbest_mem).2
    have hbest_le_r := orderByCapacityFirst_min hbest r hrs
    obtain ⟨cb, hcb⟩ : ∃ cb, best.number_of_guests = some cb := by
      rcases hb : best.number_of_guests with _ | cb
      · exfalso
        have hkb : capKey best = ⊤ := by simp [capKey, hb]
        have hkr : capKey r = (c : WithTop Nat) := by simp [capKey, hc]
        rw [hkb, hkr] at hbest_le_r
        simp at hbest_le_r
      · exact ⟨cb, rfl⟩
    have hncb : n ≤ cb := by
      rw [hcb] at hbest_pred
      simpa using hbest_pred
    refine ⟨best, cb, ?_, hbest_q, hcb, hncb, ?_⟩
    · simp only [selectPricing, hqne, Bool.false_eq_true, if_false, hbest]
    · intro r' hr' c' hc' hnc'
      have hr's : r' ∈ q.filter fun r =>
          r.number_of_guests == none || decide (n ≤ r.number_of_guests.getD 0) := by
        refine hsurv_mem r' hr' ?_
        simp [hc', hnc']
      have hmin := orderByCapacityFirst_min hbest r' hr's
      have hkb : capKey best = (cb : WithTop Nat) := by simp [capKey, hcb]
      have hkr : capKey r' = (c' : WithTop Nat) := by simp [capKey, hc']
      rw [hkb, hkr] at hmin
      exact_mod_cast hmin
  · rintro hall ⟨r, hr, hrnull⟩
    have hrs : r ∈ q.filter fun r =>
        r.number_of_guests == none || decide (n ≤ r.number_of_guests.getD 0) := by
      refine hsurv_mem r hr ?_
      simp [hrnull]
    have hqne : (q.isEmpty) = false := by
      cases q with
      | nil => cases hr
      | cons a l => simp
    obtain ⟨best, hbest⟩ : ∃ p, orderByCapacityFirst (q.filter fun r =>
        r.number_of_guests == none || decide (n ≤ r.number_of_guests.getD 0)) = some p := by
      rcases hord : orderByCapacityFirst (q.filter fun r =>
          r.number_of_guests == none || decide (n ≤ r.number_of_guests.getD 0)) with _ | p
      · rw [orderByCapacityFirst_eq_none] at hord
        rw [hord] at hrs
        cases hrs
      · exact ⟨p, rfl⟩
    have hbest_mem := orderByCapacityFirst_mem hbest
    have hbest_q : best ∈ q := (List.mem_filter.mp hbest_mem).1
    have hbest_pred := (List.mem_filter.mp hbest_mem).2
    have hbnull : best.number_of_guests = none := by
      rcases hb : best.number_of_guests with _ | cb
      · rfl
      · exfalso
        rw [hb] at hbest_pred
        have hcb_lt := hall best hbest_q cb hb
        simp at hbest_pred
        omega
    refine ⟨best, ?_, hbest_q, hbnull⟩
    simp only [selectPricing, hqne, Bool.false_eq_true, if_false, hbest]
  · intro hall hnonull
    by_cases hqe : q.isEmpty = true
    · left
      simp [selectPricing, hqe]
    · have hqne : q.isEmpty = false := by simpa using hqe
      have hsurv_nil : (q.filter fun r =>
          r.number_of_guests == none || decide (n ≤ r.number_of_guests.getD 0)) = [] := by
        rw [List.filter_eq_nil_iff]
        intro r hr
        rcases hc : r.number_of_guests with _ | c
        · exact absurd hc (hnonull r hr)
        · have := hall r hr c hc
          simp [hc]
          omega
      have hnone : orderByCapacityFirst (q.filter fun r =>
          r.number_of_guests == none || decide (n ≤ r.number_of_guests.getD 0)) = none := by
        rw [orderByCapacityFirst_eq_none]
        exact hsurv_nil
      simp only [selectPricing, hqne, Bool.false_eq_true, if_false, hnone]
      rcases hmax : maxCapacityAgg q with _ | m
      · left
        rfl
      · by_cases hm : (m != 0 && decide (m < n)) = true
        · right
          refine ⟨m, ?_⟩
          simp [hm]
        · left
          simp [hm]

/-- Records for the C6 counterexample: one occupancy-bound candidate with
capacity 2 and one null-occupancy candidate. -/
def boundedCandidate : PropertyPricing :=
  { property := 1
    accommodation_type := AccType.full_apartment
    guest_type := GuestType.international
    stay_type := StayType.short_term
    number_of_guests := some 2
    min_nights := 1
    max_nights := none
    price_per_night := 100
    weekly_price := none
    includes_breakfast := false
    includes_fullboard := false }

def nullCapCandidate : PropertyPricing :=
  { boundedCandidate with number_of_guests := none, price_per_night := 300 }

/-- C6 counterexample: with candidates {capacity 2, capacity null} and a
requested occupancy of 5, no candidate has sufficient bounded capacity, yet
the resolver selects the null-occupancy record rather than treating the
request as having no candidate — and it does so although an occupancy-bound
candidate exists, contradicting "null is used only when no occupancy-bound
candidate exists at all". -/
theorem occupancy_selection_counterexample :
    selectPricing [boundedCandidate, nullCapCandidate] (some 5) =
        SelectOutcome.selected nullCapCandidate ∧
      nullCapCandidate.number_of_guests = none ∧
      boundedCandidate.number_of_guests = some 2 ∧ ¬(5 ≤ 2) := by
  refine ⟨?_, rfl, rfl, by norm_num⟩
  rfl

/-- Witness for C6 (amended), first clause: a single candidate of capacity 4
is selected for 2 requested guests. -/
theorem occupancy_selection_witness :
    selectPricing [boundedCandidate] (some 2) = SelectOutcome.selected boundedCandidate := by
  obtain ⟨p, c, hsel, hmem, -, -, -⟩ :=
    (occupancy_selection [boundedCandidate] 2).1
      ⟨boundedCandidate, by simp, 2, rfl, by norm_num⟩
  have hp : p = boundedCandidate := by simpa using hmem
  rw [hp] at hsel
  exact hsel

theorem mem_getDateRange {d s e : Int} : d ∈ getDateRange s e ↔ s ≤ d ∧ d < e := by
  unfold getDateRange
  rw [List.mem_map]
  constructor
  · rintro ⟨i, hi, rfl⟩
    rw [List.mem_range] at hi
    omega
  · rintro ⟨h1, h2⟩
    refine ⟨(d - s).toNat, ?_, by omega⟩
    rw [List.mem_range]
    omega

/-- C10: a date is in the exploded `unavailable_dates` list iff it lies both
in the query window and inside an active reservation's interval or a blocked
range for the property; buffer conflicts contribute no dates, so a query
conflicting only with the buffer rule reports `is_available = false` with an
empty `unavailable_dates` list. -/
theorem unavailable_dates_characterization (bookings : List Booking)
    (blocked : List BlockedDate) (prop : Nat) (ci co d : Int) :
    (d ∈ (checkAvailability bookings blocked prop ci co).unavailable_dates ↔
      ((∃ b ∈ bookings, b.property = prop ∧ activeStatus b = true ∧
          b.check_in ≤ d ∧ d < b.check_out ∧ ci ≤ d ∧ d < co) ∨
       (∃ r ∈ blocked, r.property = prop ∧
          r.start_date ≤ d ∧ d < r.end_date ∧ ci ≤ d ∧ d < co)))
  ∧ ((∀ b ∈ bookings, b.property = prop → activeStatus b = true →
        ¬(b.check_in < co ∧ ci < b.check_out)) →
     (∀ r ∈ blocked, r.property = prop →
        ¬(r.start_date < co ∧ ci < r.end_date)) →
     (∃ b ∈ bookings, b.property = prop ∧ activeStatus b = true ∧ b.check_out = ci) →
       (checkAvailability bookings blocked prop ci co).is_available = false ∧
       (checkAvailability bookings blocked prop ci co).unavailable_dates = []) := by
  constructor
  · simp only [checkAvailability, List.mem_append, List.mem_flatten, List.mem_map]
    constructor
    · rintro (⟨dl, ⟨b, hb, rfl⟩, hd⟩ | ⟨dl, ⟨r, hr, rfl⟩, hd⟩)
      · left
        have hmem := List.mem_filter.mp hb
        rcases hmem with ⟨hbm, hpred⟩
        simp only [Bool.and_eq_true, beq_iff_eq, decide_eq_true_eq] at hpred
        rw [mem_getDateRange] at hd
        exact ⟨b, hbm, hpred.1.1.1, hpred.1.1.2, by omega, by omega, by omega, by omega⟩
      · right
        have hmem := List.mem_filter.mp hr
        rcases hmem with ⟨hrm, hpred⟩
        simp only [Bool.and_eq_true, beq_iff_eq, decide_eq_true_eq] at hpred
        rw [mem_getDateRange] at hd
        exact ⟨r, hrm, hpred.1.1, by omega, by omega, by omega, by omega⟩
    · rintro (⟨b, hb, hp, hact, h1, h2, h3, h4⟩ | ⟨r, hr, hp, h1, h2, h3, h4⟩)
      · left
        refine ⟨getDateRange (max ci b.check_in) (min co b.check_out), ⟨b, ?_, rfl⟩, ?_⟩
        · refine List.mem_filter.mpr ⟨hb, ?_⟩
          simp only [Bool.and_eq_true, beq_iff_eq, decide_eq_true_eq]
          exact ⟨⟨⟨hp, hact⟩, by omega⟩, by omega⟩
        · rw [mem_getDateRange]
          omega
      · right
        refine ⟨getDateRange (max ci r.start_date) (min co r.end_date), ⟨r, ?_, rfl⟩, ?_⟩
        · refine List.mem_filter.mpr ⟨hr, ?_⟩
          simp only [Bool.and_eq_true, beq_iff_eq, decide_eq_true_eq]
          exact ⟨⟨hp, by omega⟩, by omega⟩
        · rw [mem_getDateRange]
          omega
  · intro hnoover hnoblock hbuf
    have hono : (bookings.filter fun b =>
        b.property == prop && activeStatus b &&
          decide (b.check_in < co) && decide (ci < b.check_out)) = [] := by
      rw [List.filter_eq_nil_iff]
      intro b hb
      simp only [Bool.and_eq_true, beq_iff_eq, decide_eq_true_eq, not_and]
      intro hpre
      intro hco
      rcases hpre with ⟨⟨hp, hact⟩, hin⟩
      exact absurd ⟨hin, hco⟩ (hnoover b hb hp hact)
    have hbno : (blocked.filter fun r =>
        r.property == prop &&
          decide (r.start_date < co) && decide (ci < r.end_date)) = [] := by
      rw [List.filter_eq_nil_iff]
      intro r hr
      simp only [Bool.and_eq_true, beq_iff_eq, decide_eq_true_eq, not_and]
      intro hpre
      intro hco
      rcases hpre with ⟨hp, hin⟩
      exact absurd ⟨hin, hco⟩ (hnoblock r hr hp)
    have hbufne : (bookings.filter fun b =>
        b.property == prop && activeStatus b && b.check_out == ci) ≠ [] := by
      rcases hbuf with ⟨b, hb, hp, hact, hout⟩
      intro hnil
      have : b ∈ bookings.filter fun b =>
          b.property == prop && activeStatus b && b.check_out == ci := by
        refine List.mem_filter.mpr ⟨hb, ?_⟩
        simp [hp, hact, hout]
      rw [hnil] at this
      cases this
    constructor
    · simp only [checkAvailability, hono, hbno]
      rcases hx : bookings.filter fun b =>
          b.property == prop && activeStatus b && b.check_out == ci with _ | ⟨a, l⟩
      · exact absurd hx hbufne
      · simp [hx]
    · simp only [checkAvailability, hono, hbno]
      simp

/-- Concrete confirmed reservation used by closed instances below. -/
def sampleBooking : Booking :=
  { id := 0
    user := none
    property := 1
    status := BookingStatus.confirmed
    accommodation_type := AccType.full_apartment
    guest_type := some GuestType.international
    stay_type := some StayType.short_term
    check_in := 5
    check_out := 10
    number_of_guests := 2
    number_of_adults := 1
    number_of_children := 0
    total_days := 5
    phone := ""
    selected_pricing := none
    total_amount := 0
    includes_breakfast := false
    includes_fullboard := false }

/-- Witness for C10: a query starting exactly on `sampleBooking`'s check-out
day is rejected with an empty unavailable-dates list. -/
theorem unavailable_dates_characterization_witness :
    (checkAvailability [sampleBooking] [] 1 10 12).is_available = false ∧
    (checkAvailability [sampleBooking] [] 1 10 12).unavailable_dates = [] :=
  (unavailable_dates_characterization [sampleBooking] [] 1 10 12 0).2
    (by decide) (by decide) ⟨sampleBooking, by decide, by decide, by decide, by decide⟩

theorem createBooking_ok_validate {cat : List PropertyPricing} {prop : Property}
    {phoneInfo : String → Option (Bool × Option String)} {bookings : List Booking}
    {blocked : List BlockedDate} {req : BookingRequest} {ruser : Option User}
    {today : Int} {newId : Nat} {nb : Booking}
    (h : createBooking cat prop phoneInfo bookings blocked req ruser today newId =
      Except.ok nb) :
    validateBookingRequest cat prop phoneInfo bookings blocked req ruser today =
      Except.ok () := by
  unfold createBooking at h
  cases hv : validateBookingRequest cat prop phoneInfo bookings blocked req ruser today with
  | error e =>
      rw [hv] at h
      exact Except.noConfusion h
  | ok u =>
      cases u
      rfl

theorem validate_ok_facts {cat : List PropertyPricing} {prop : Property}
    {phoneInfo : String → Option (Bool × Option String)} {bookings : List Booking}
    {blocked : List BlockedDate} {req : BookingRequest} {ruser : Option User}
    {today : Int}
    (h : validateBookingRequest cat prop phoneInfo bookings blocked req ruser today =
      Except.ok ()) :
    guestNumbersMismatch req.number_of_adults req.number_of_children
        req.number_of_guests = false
  ∧ req.check_in < req.check_out
  ∧ overlapConflict bookings prop req = false
  ∧ bufferConflict bookings prop req = false := by
  unfold validateBookingRequest at h
  by_cases c1 : missingFullName req ruser = true
  · rw [if_pos c1] at h
    exact Except.noConfusion h
  rw [if_neg c1] at h
  by_cases c2 : missingEmail req ruser = true
  · rw [if_pos c2] at h
    exact Except.noConfusion h
  rw [if_neg c2] at h
  by_cases c3 : missingGuestPhone req ruser = true
  · rw [if_pos c3] at h
    exact Except.noConfusion h
  rw [if_neg c3] at h
  by_cases c4 : missingProfilePhone req ruser = true
  · rw [if_pos c4] at h
    exact Except.noConfusion h
  rw [if_neg c4] at h
  by_cases c5 : guestNumbersMismatch req.number_of_adults req.number_of_children
      req.number_of_guests = true
  · rw [if_pos c5] at h
    exact Except.noConfusion h
  rw [if_neg c5] at h
  by_cases c6 : propertyCapacityExceeded prop req = true
  · rw [if_pos c6] at h
    exact Except.noConfusion h
  rw [if_neg c6] at h
  by_cases c7 : dogNotAllowed prop req = true
  · rw [if_pos c7] at h
    exact Except.noConfusion h
  rw [if_neg c7] at h
  by_cases c8 : decide (req.check_out ≤ req.check_in) = true
  · rw [if_pos c8] at h
    exact Except.noConfusion h
  rw [if_neg c8] at h
  by_cases c9 : decide (req.check_in < today) = true
  · rw [if_pos c9] at h
    exact Except.noConfusion h
  rw [if_neg c9] at h
  by_cases c10 : decide (totalNights req < prop.min_nights) = true
  · rw [if_pos c10] at h
    exact Except.noConfusion h
  rw [if_neg c10] at h
  by_cases c11 : overlapConflict bookings prop req = true
  · rw [if_pos c11] at h
    exact Except.noConfusion h
  rw [if_neg c11] at h
  by_cases c12 : blockedConflict blocked prop req = true
  · rw [if_pos c12] at h
    exact Except.noConfusion h
  rw [if_neg c12] at h
  by_cases c13 : bufferConflict bookings prop req = true
  · rw [if_pos c13] at h
    exact Except.noConfusion h
  rw [if_neg c13] at h
  refine ⟨by simpa using c5, ?_, by simpa using c11, by simpa using c13⟩
  have h8 : ¬ req.check_out ≤ req.check_in := by simpa using c8
  omega

/-- C5: for an existing active reservation checking out on day D on the
requested property, a booking request with check_in = D is rejected by the
create path, the availability check reports unavailability with the
reservation listed as a buffer conflict, and yet the two intervals do not
overlap under the strict test. -/
theorem buffer_rule (cat : List PropertyPricing) (prop : Property)
    (phoneInfo : String → Option (Bool × Option String)) (bookings : List Booking)
    (blocked : List BlockedDate) (req : BookingRequest) (ruser : Option User)
    (today : Int) (newId : Nat) (b : Booking)
    (hb : b ∈ bookings) (hact : activeStatus b = true) (hprop : b.property = prop.id)
    (hout : b.check_out = req.check_in) :
    (∀ nb, createBooking cat prop phoneInfo bookings blocked req ruser today newId ≠
        Except.ok nb)
  ∧ (checkAvailability bookings blocked prop.id req.check_in req.check_out).is_available
      = false
  ∧ b ∈ (checkAvailability bookings blocked prop.id req.check_in
      req.check_out).buffer_conflicts
  ∧ strictOverlap b.check_in b.check_out req.check_in req.check_out = false := by
  have hbufmem : b ∈ bookings.filter fun x =>
      x.property == prop.id && activeStatus x && x.check_out == req.check_in := by
    refine List.mem_filter.mpr ⟨hb, ?_⟩
    simp [hprop, hact, hout]
  have hbuf : bufferConflict bookings prop req = true := by
    rw [bufferConflict, List.any_eq_true]
    exact ⟨b, hb, by simp [hprop, hact, hout]⟩
  refine ⟨?_, ?_, ?_, ?_⟩
  · intro nb hok
    have hfacts := validate_ok_facts (createBooking_ok_validate hok)
    rw [hfacts.2.2.2] at hbuf
    exact Bool.noConfusion hbuf
  · have hne : (bookings.filter fun x =>
        x.property == prop.id && activeStatus x && x.check_out == req.check_in).isEmpty
          = false := by
      simpa [List.isEmpty_iff] using List.ne_nil_of_mem hbufmem
    simp only [checkAvailability, hne, Bool.and_false]
  · simpa [checkAvailability] using hbufmem
  · simp [strictOverlap, hout]

/-- Shared concrete fixtures for closed instances. -/
def demoProperty : Property :=
  { id := 1
    name := "Ocean Kifaru North-Sea"
    country := "kenya"
    price := 50
    min_nights := 1
    max_guests := some 10 }

def demoPricing : PropertyPricing :=
  { property := 1
    accommodation_type := AccType.full_apartment
    guest_type := GuestType.international
    stay_type := StayType.short_term
    number_of_guests := none
    min_nights := 1
    max_nights := none
    price_per_night := 100
    weekly_price := none
    includes_breakfast := false
    includes_fullboard := false }

/-- Oracle modelling a parse of a valid phone number with no geocoder
country description. -/
def demoOracle : String → Option (Bool × Option String) := fun _ => some (true, none)

def demoRequest : BookingRequest :=
  { property := 1
    accommodation_type := AccType.full_apartment
    check_in := 10
    check_out := 12
    number_of_guests := some 5
    number_of_adults := some 2
    number_of_children := some 0
    full_name := some "Guest Person"
    email := some "guest@example.com"
    phone := some "+254700000001"
    dog_included := false }

/-- Witness for C5: `sampleBooking` checks out on day 10; a request with
check_in = 10 is rejected and flagged as a buffer conflict without interval
overlap. -/
theorem buffer_rule_witness :
    createBooking [demoPricing] demoProperty demoOracle [sampleBooking] [] demoRequest
        none 0 1 ≠ Except.ok sampleBooking ∧
    (checkAvailability [sampleBooking] [] 1 10 12).is_available = false ∧
    strictOverlap 5 10 10 12 = false :=
  ⟨(buffer_rule [demoPricing] demoProperty demoOracle [sampleBooking] [] demoRequest
      none 0 1 sampleBooking (by decide) (by decide) (by decide) (by decide)).1 sampleBooking,
   (buffer_rule [demoPricing] demoProperty demoOracle [sampleBooking] [] demoRequest
      none 0 1 sampleBooking (by decide) (by decide) (by decide) (by decide)).2.1,
   (buffer_rule [demoPricing] demoProperty demoOracle [sampleBooking] [] demoRequest
      none 0 1 sampleBooking (by decide) (by decide) (by decide) (by decide)).2.2.2⟩

def isOkResult (x : Except RejectReason Booking) : Bool :=
  match x with
  | Except.ok _ => true
  | Except.error _ => false

/-- C8 counterexample: a request supplying number_of_adults = 2 and
number_of_children = 0 with a stated total of 5 guests is accepted
end-to-end — the arithmetic check is skipped because a zero child count is
Python-falsy in `if number_of_adults and number_of_children:`. -/
theorem occupancy_arithmetic_counterexample :
    demoRequest.number_of_adults = some 2 ∧
    demoRequest.number_of_children = some 0 ∧
    demoRequest.number_of_guests = some 5 ∧ 2 + 0 ≠ 5 ∧
    isOkResult (createBooking [demoPricing] demoProperty demoOracle [] [] demoRequest
      none 0 0) = true := by
  refine ⟨rfl, rfl, rfl, by decide, ?_⟩
  decide

theorem serializerGuestTypeFromPhone_error {phoneInfo : String → Option (Bool × Option String)}
    {prop : Property} {phone : Option String} {e : RejectReason}
    (h : serializerGuestTypeFromPhone phoneInfo prop phone = Except.error e) :
    e = RejectReason.invalid_phone := by
  unfold serializerGuestTypeFromPhone at h
  by_cases ht : truthyStr phone = true
  · rw [if_pos ht] at h
    rcases hp : phoneInfo (phone.getD "") with _ | ⟨valid, cty⟩
    · rw [hp] at h
      exact (Except.error.injEq _ _).mp h.symm
    · rw [hp] at h
      dsimp only at h
      by_cases hv : (!valid) = true
      · rw [if_pos hv] at h
        exact (Except.error.injEq _ _).mp h.symm
      · rw [if_neg hv] at h
        rcases cty with _ | c
        · exact Except.noConfusion h
        · exact Except.noConfusion h
  · rw [if_neg ht] at h
    exact Except.noConfusion h

theorem resolveGuestTypeSerializer_error {phoneInfo : String → Option (Bool × Option String)}
    {prop : Property} {ruser : Option User} {phone : Option String} {e : RejectReason}
    (h : resolveGuestTypeSerializer phoneInfo prop ruser phone = Except.error e) :
    e = RejectReason.invalid_phone := by
  unfold resolveGuestTypeSerializer at h
  rcases ruser with _ | u
  · exact serializerGuestTypeFromPhone_error h
  · dsimp only at h
    by_cases hc : truthyStr u.country_of_residence = true
    · rw [if_pos hc] at h
      exact Except.noConfusion h
    · rw [if_neg hc] at h
      exact serializerGuestTypeFromPhone_error h

theorem pricingCheck_error_kinds {cat : List PropertyPricing} {prop : Property}
    {phoneInfo : String → Option (Bool × Option String)} {req : BookingRequest}
    {ruser : Option User} {e : RejectReason}
    (h : pricingCheck cat prop phoneInfo req ruser = Except.error e) :
    e = RejectReason.invalid_phone ∨
    e = RejectReason.accommodation_capacity_exceeded ∨
    ∃ pe, e = RejectReason.pricing pe := by
  unfold pricingCheck at h
  rcases hg : resolveGuestTypeSerializer phoneInfo prop ruser req.phone with ge | gt
  · rw [hg] at h
    have := resolveGuestTypeSerializer_error hg
    left
    rw [← this]
    exact ((Except.error.injEq _ _).mp h).symm
  · rw [hg] at h
    dsimp only at h
    by_cases hn : truthyNat req.number_of_guests = true
    · rw [if_pos hn] at h
      by_cases hs : (!(List.filter (fun r =>
          r.number_of_guests == none ||
            decide (req.number_of_guests.getD 0 ≤ r.number_of_guests.getD 0))
          (pricingQuery cat prop.id req.accommodation_type gt
            (stayTypeSerializer (hasWeeklyPricing cat prop.id req.accommodation_type)
              (totalNights req)) (totalNights req))).isEmpty) = true
      · rw [if_pos hs] at h
        exact Except.noConfusion h
      · rw [if_neg hs] at h
        by_cases hm : (truthyNat (maxCapacityAgg (List.filter (fun r =>
            r.property == prop.id && r.accommodation_type == req.accommodation_type &&
              r.stay_type == stayTypeSerializer
                (hasWeeklyPricing cat prop.id req.accommodation_type) (totalNights req)) cat))
            && decide ((maxCapacityAgg (List.filter (fun r =>
                r.property == prop.id && r.accommodation_type == req.accommodation_type &&
                  r.stay_type == stayTypeSerializer
                    (hasWeeklyPricing cat prop.id req.accommodation_type)
                    (totalNights req)) cat)).getD 0 < req.number_of_guests.getD 0)) = true
        · rw [if_pos hm] at h
          right; left
          exact ((Except.error.injEq _ _).mp h).symm
        · rw [if_neg hm] at h
          right; right
          exact ⟨_, ((Except.error.injEq _ _).mp h).symm⟩
    · rw [if_neg hn] at h
      by_cases hq : (!(pricingQuery cat prop.id req.accommodation_type gt
          (stayTypeSerializer (hasWeeklyPricing cat prop.id req.accommodation_type)
            (totalNights req)) (totalNights req)).isEmpty) = true
      · rw [if_pos hq] at h
        exact Except.noConfusion h
      · rw [if_neg hq] at h
        right; right
        exact ⟨_, ((Except.error.injEq _ _).mp h).symm⟩

/-- C8 amended: the occupancy arithmetic check fires exactly when both the
adult and child counts are supplied *and non-zero* (Python truthiness) and
their sum differs from the stated total (an absent total counts as a
mismatch); when it fires, booking creation is rejected; and a request whose
counts sum to the stated total is never rejected with the
`guest_numbers_mismatch` error. -/
theorem occupancy_arithmetic (cat : List PropertyPricing) (prop : Property)
    (phoneInfo : String → Option (Bool × Option String)) (bookings : List Booking)
    (blocked : List BlockedDate) (req : BookingRequest) (ruser : Option User)
    (today : Int) (newId : Nat) :
    (guestNumbersMismatch req.number_of_adults req.number_of_children
        req.number_of_guests = true ↔
      (truthyNat req.number_of_adults = true ∧ truthyNat req.number_of_children = true ∧
        ∀ t, req.number_of_guests = some t →
          req.number_of_adults.getD 0 + req.number_of_children.getD 0 ≠ t))
  ∧ (guestNumbersMismatch req.number_of_adults req.number_of_children
        req.number_of_guests = true →
      ∀ nb, createBooking cat prop phoneInfo bookings blocked req ruser today newId ≠
        Except.ok nb)
  ∧ (guestNumbersMismatch req.number_of_adults req.number_of_children
        req.number_of_guests = false →
      validateBookingRequest cat prop phoneInfo bookings blocked req ruser today ≠
        Except.error RejectReason.guest_numbers_mismatch) := by
  refine ⟨?_, ?_, ?_⟩
  · unfold guestNumbersMismatch
    rcases req.number_of_guests with _ | t
    · simp [Bool.and_eq_true]
    · simp [Bool.and_eq_true]
      tauto
  · intro hm nb hok
    have hfacts := validate_ok_facts (createBooking_ok_validate hok)
    rw [hfacts.1] at hm
    exact Bool.noConfusion hm
  · intro hm hval
    unfold validateBookingRequest at hval
    by_cases c1 : missingFullName req ruser = true
    · rw [if_pos c1] at hval
      exact RejectReason.noConfusion ((Except.error.injEq _ _).mp hval)
    rw [if_neg c1] at hval
    by_cases c2 : missingEmail req ruser = true
    · rw [if_pos c2] at hval
      exact RejectReason.noConfusion ((Except.error.injEq _ _).mp hval)
    rw [if_neg c2] at hval
    by_cases c3 : missingGuestPhone req ruser = true
    · rw [if_pos c3] at hval
      exact RejectReason.noConfusion ((Except.error.injEq _ _).mp hval)
    rw [if_neg c3] at hval
    by_cases c4 : missingProfilePhone req ruser = true
    · rw [if_pos c4] at hval
      exact RejectReason.noConfusion ((Except.error.injEq _ _).mp hval)
    rw [if_neg c4] at hval
    rw [if_neg (by rw [hm]; exact Bool.noConfusion)] at hval
    by_cases c6 : propertyCapacityExceeded prop req = true
    · rw [if_pos c6] at hval
      exact RejectReason.noConfusion ((Except.error.injEq _ _).mp hval)
    rw [if_neg c6] at hval
    by_cases c7 : dogNotAllowed prop req = true
    · rw [if_pos c7] at hval
      exact RejectReason.noConfusion ((Except.error.injEq _ _).mp hval)
    rw [if_neg c7] at hval
    by_cases c8 : decide (req.check_out ≤ req.check_in) = true
    · rw [if_pos c8] at hval
      exact RejectReason.noConfusion ((Except.error.injEq _ _).mp hval)
    rw [if_neg c8] at hval
    by_cases c9 : decide (req.check_in < today) = true
    · rw [if_pos c9] at hval
      exact RejectReason.noConfusion ((Except.error.injEq _ _).mp hval)
    rw [if_neg c9] at hval
    by_cases c10 : decide (totalNights req < prop.min_nights) = true
    · rw [if_pos c10] at hval
      exact RejectReason.noConfusion ((Except.error.injEq _ _).mp hval)
    rw [if_neg c10] at hval
    by_cases c11 : overlapConflict bookings prop req = true
    · rw [if_pos c11] at hval
      exact RejectReason.noConfusion ((Except.error.injEq _ _).mp hval)
    rw [if_neg c11] at hval
    by_cases c12 : blockedConflict blocked prop req = true
    · rw [if_pos c12] at hval
      exact RejectReason.noConfusion ((Except.error.injEq _ _).mp hval)
    rw [if_neg c12] at hval
    by_cases c13 : bufferConflict bookings prop req = true
    · rw [if_pos c13] at hval
      exact RejectReason.noConfusion ((Except.error.injEq _ _).mp hval)
    rw [if_neg c13] at hval
    rcases pricingCheck_error_kinds hval with he | he | ⟨pe, he⟩
    · exact RejectReason.noConfusion he
    · exact RejectReason.noConfusion he
    · exact RejectReason.noConfusion he

/-- Request with both counts non-zero and a mismatching stated total. -/
def mismatchRequest : BookingRequest :=
  { demoRequest with
      number_of_adults := some 2
      number_of_children := some 3
      number_of_guests := some 4 }

/-- Witness for C8 (amended): a truthy mismatching triple (2 adults,
3 children, 4 total) is rejected end-to-end. -/
theorem occupancy_arithmetic_witness :
    createBooking [demoPricing] demoProperty demoOracle [] [] mismatchRequest
        none 0 0 ≠ Except.ok sampleBooking :=
  (occupancy_arithmetic [demoPricing] demoProperty demoOracle [] [] mismatchRequest
      none 0 0).2.1 (by decide) sampleBooking

theorem modelPricingQueryFor_mem {cat : List PropertyPricing} {prop : Nat} {acc : AccType}
    {g : Option GuestType} {st : Option StayType} {n : Nat} {r : PropertyPricing}
    (h : r ∈ modelPricingQueryFor cat prop acc g st n) :
    r ∈ cat ∧ r.property = prop ∧ r.accommodation_type = acc ∧
      some r.guest_type = g ∧ some r.stay_type = st := by
  have hm := List.mem_filter.mp h
  refine ⟨hm.1, ?_⟩
  have hp := hm.2
  simp only [Bool.and_eq_true, beq_iff_eq] at hp
  exact ⟨hp.1.1.1.1.1, hp.1.1.1.1.2, hp.1.1.1.2, hp.1.1.2⟩

theorem modelSelectPricing_mem {cat : List PropertyPricing} {b : Booking} {gt : GuestType}
    {st : Option StayType} {n : Nat} {p : PropertyPricing}
    (h : modelSelectPricing cat b gt st n = some p) :
    p ∈ modelPricingQueryFor cat b.property b.accommodation_type (some gt) st n ∨
    p ∈ modelPricingQueryFor cat b.property b.accommodation_type (some GuestType.all) st n := by
  unfold modelSelectPricing at h
  dsimp only at h
  by_cases he : (modelPricingQueryFor cat b.property b.accommodation_type (some gt) st n).isEmpty
      = true
  · right
    rw [if_pos he] at h
    rcases hord : orderByCapacityFirst ((modelPricingQueryFor cat b.property
        b.accommodation_type (some GuestType.all) st n).filter fun r =>
          r.number_of_guests == none ||
            decide (b.number_of_guests ≤ r.number_of_guests.getD 0)) with _ | p'
    · rw [hord] at h
      rcases hq : modelPricingQueryFor cat b.property b.accommodation_type
          (some GuestType.all) st n with _ | ⟨a, l⟩
      · rw [hq] at h
        exact Option.noConfusion h
      · rw [hq] at h
        have : p = a := by
          have hh : (a :: l).head? = some p := h
          simpa using hh.symm
        rw [this]
        exact List.mem_cons_self a l
    · rw [hord] at h
      have hp' : p' = p := by simpa using h
      rw [← hp']
      exact List.mem_of_mem_filter (orderByCapacityFirst_mem hord)
  · left
    rw [if_neg he] at h
    rcases hord : orderByCapacityFirst ((modelPricingQueryFor cat b.property
        b.accommodation_type (some gt) st n).filter fun r =>
          r.number_of_guests == none ||
            decide (b.number_of_guests ≤ r.number_of_guests.getD 0)) with _ | p'
    · rw [hord] at h
      rcases hq : modelPricingQueryFor cat b.property b.accommodation_type
          (some gt) st n with _ | ⟨a, l⟩
      · rw [hq] at h
        exact Option.noConfusion h
      · rw [hq] at h
        have : p = a := by
          have hh : (a :: l).head? = some p := h
          simpa using hh.symm
        rw [this]
        exact List.mem_cons_self a l
    · rw [hord] at h
      have hp' : p' = p := by simpa using h
      rw [← hp']
      exact List.mem_of_mem_filter (orderByCapacityFirst_mem hord)

/-- C9: every booking persisted through the creation endpoint carries the
serializer-untouched model defaults `stay_type = 'short_term'` and
`guest_type = 'international'` — the classification branches of
`Booking.save` never run on this path, because the defaults are truthy —
and consequently its pricing record is resolved among the `short_term`
records for the `international` (or wildcard) tier, regardless of the
stay's length or the guest's actual origin. -/
theorem creation_path_defaults (cat : List PropertyPricing) (prop : Property)
    (phoneInfo : String → Option (Bool × Option String)) (req : BookingRequest)
    (ruser : Option User) (newId : Nat) (b' : Booking)
    (h : bookingSave cat prop phoneInfo (initialBooking req ruser newId) = Except.ok b') :
    b'.stay_type = some StayType.short_term ∧
    b'.guest_type = some GuestType.international ∧
    ∀ p, b'.selected_pricing = some p →
      p ∈ cat ∧ p.stay_type = StayType.short_term ∧
      (p.guest_type = GuestType.international ∨ p.guest_type = GuestType.all) ∧
      p.property = req.property ∧ p.accommodation_type = req.accommodation_type := by
  unfold bookingSave at h
  dsimp only [initialBooking, modelResolveGuestType, savedTotalDays, savedStayType,
    savedSelectedPricing] at h
  rcases hsel : modelSelectPricing cat (initialBooking req ruser newId)
      GuestType.international (some StayType.short_term)
      (req.check_out - req.check_in).toNat with _ | p
  · dsimp only [initialBooking] at hsel
    rw [hsel] at h
    dsimp only at h
    by_cases ht : ((req.check_out - req.check_in).toNat != 0) = true
    · rw [if_pos ht] at h
      have hb := (Except.ok.injEq _ _).mp h
      subst hb
      exact ⟨rfl, rfl, fun p hp => Option.noConfusion hp⟩
    · rw [if_neg ht] at h
      have hb := (Except.ok.injEq _ _).mp h
      subst hb
      exact ⟨rfl, rfl, fun p hp => Option.noConfusion hp⟩
  · dsimp only [initialBooking] at hsel
    rw [hsel] at h
    dsimp only at h
    have hmem := modelSelectPricing_mem hsel
    have hfacts : p ∈ cat ∧ p.stay_type = StayType.short_term ∧
        (p.guest_type = GuestType.international ∨ p.guest_type = GuestType.all) ∧
        p.property = req.property ∧ p.accommodation_type = req.accommodation_type := by
      rcases hmem with hm | hm
      · have hq := modelPricingQueryFor_mem hm
        refine ⟨hq.1, ?_, Or.inl ?_, hq.2.1, hq.2.2.1⟩
        · have := hq.2.2.2.2
          simpa using this
        · have := hq.2.2.2.1
          simpa using this
      · have hq := modelPricingQueryFor_mem hm
        refine ⟨hq.1, ?_, Or.inr ?_, hq.2.1, hq.2.2.1⟩
        · have := hq.2.2.2.2
          simpa using this
        · have := hq.2.2.2.1
          simpa using this
    by_cases ht : ((req.check_out - req.check_in).toNat != 0) = true
    · rw [if_pos ht] at h
      have hb := (Except.ok.injEq _ _).mp h
      subst hb
      refine ⟨rfl, rfl, fun p' hp' => ?_⟩
      have : p = p' := by simpa using hp'
      rw [← this]
      exact hfacts
    · rw [if_neg ht] at h
      have hb := (Except.ok.injEq _ _).mp h
      subst hb
      refine ⟨rfl, rfl, fun p' hp' => ?_⟩
      have : p = p' := by simpa using hp'
      rw [← this]
      exact hfacts

/-- Weekly-tier catalog record for the same property/accommodation. -/
def demoWeeklyPricing : PropertyPricing :=
  { demoPricing with stay_type := StayType.weekly, weekly_price := some 1200 }

/-- A 14-night request: the §4.2 rule table would classify it weekly (a
weekly record exists), making the persisted defaults observable. -/
def fortnightRequest : BookingRequest :=
  { demoRequest with check_out := 24 }

def fortnightSaved : Booking :=
  (bookingSave [demoPricing, demoWeeklyPricing] demoProperty demoOracle
      (initialBooking fortnightRequest none 0)).toOption.getD
    (initialBooking fortnightRequest none 0)

/-- Witness for C9: the persisted 14-night booking still carries
`short_term` / `international`. -/
theorem creation_path_defaults_witness :
    fortnightSaved.stay_type = some StayType.short_term ∧
    fortnightSaved.guest_type = some GuestType.international :=
  ⟨(creation_path_defaults [demoPricing, demoWeeklyPricing] demoProperty demoOracle
      fortnightRequest none 0 fortnightSaved rfl).1,
   (creation_path_defaults [demoPricing, demoWeeklyPricing] demoProperty demoOracle
      fortnightRequest none 0 fortnightSaved rfl).2.1⟩

theorem bookingSave_preserves {cat : List PropertyPricing} {prop : Property}
    {phoneInfo : String → Option (Bool × Option String)} {b b' : Booking}
    (h : bookingSave cat prop phoneInfo b = Except.ok b') :
    b'.check_in = b.check_in ∧ b'.check_out = b.check_out ∧
    b'.property = b.property ∧ b'.status = b.status ∧ b'.id = b.id := by
  unfold bookingSave at h
  rcases hg : modelResolveGuestType phoneInfo prop b with e | gt
  · rw [hg] at h
    exact Except.noConfusion h
  · rw [hg] at h
    dsimp only at h
    rcases hsel : savedSelectedPricing cat b gt (savedStayType cat b (savedTotalDays b))
        (savedTotalDays b) with _ | p
    · rw [hsel] at h
      dsimp only at h
      by_cases ht : (savedTotalDays b != 0) = true
      · rw [if_pos ht] at h
        have hb := (Except.ok.injEq _ _).mp h
        subst hb
        exact ⟨rfl, rfl, rfl, rfl, rfl⟩
      · rw [if_neg ht] at h
        have hb := (Except.ok.injEq _ _).mp h
        subst hb
        exact ⟨rfl, rfl, rfl, rfl, rfl⟩
    · rw [hsel] at h
      dsimp only at h
      by_cases ht : (savedTotalDays b != 0) = true
      · rw [if_pos ht] at h
        have hb := (Except.ok.injEq _ _).mp h
        subst hb
        exact ⟨rfl, rfl, rfl, rfl, rfl⟩
      · rw [if_neg ht] at h
        have hb := (Except.ok.injEq _ _).mp h
        subst hb
        exact ⟨rfl, rfl, rfl, rfl, rfl⟩

/-- C1 amended: the no-double-booking invariant is preserved by booking
creation (which rejects any request overlapping an existing active
reservation on the property), by cancellation, and by payment confirmation
of a reservation that is still active — but not by every state-changing
operation: the date-updating endpoint is exempted (see the counterexample). -/
theorem no_double_booking_preserved (cat : List PropertyPricing) (propsOf : Nat → Property)
    (phoneInfo : String → Option (Bool × Option String)) (s : SysState)
    (hprops : ∀ p, (propsOf p).id = p)
    (hinv : NoDoubleBooking s.bookings) :
    (∀ req ruser today,
        NoDoubleBooking (applyOp cat propsOf phoneInfo s (Op.create req ruser today)).bookings)
  ∧ (∀ bid, (∀ b ∈ s.bookings, b.id = bid → activeStatus b = true) →
        NoDoubleBooking (applyOp cat propsOf phoneInfo s (Op.confirmPayment bid)).bookings)
  ∧ (∀ bid, NoDoubleBooking (applyOp cat propsOf phoneInfo s (Op.cancel bid)).bookings)
  ∧ (∀ req ruser today newId nb,
        (∃ b ∈ s.bookings, activeStatus b = true ∧ b.property = (propsOf req.property).id ∧
          b.check_in < req.check_out ∧ req.check_in < b.check_out) →
        createBooking cat (propsOf req.property) phoneInfo s.bookings s.blocked req ruser
          today newId ≠ Except.ok nb) := by
  have hreject : ∀ (req : BookingRequest) (ruser : Option User) (today : Int) (newId : Nat)
      (nb : Booking),
      (∃ b ∈ s.bookings, activeStatus b = true ∧ b.property = (propsOf req.property).id ∧
        b.check_in < req.check_out ∧ req.check_in < b.check_out) →
      createBooking cat (propsOf req.property) phoneInfo s.bookings s.blocked req ruser
        today newId ≠ Except.ok nb := by
    rintro req ruser today newId nb ⟨b, hb, hact, hp, h1, h2⟩ hok
    have hfacts := validate_ok_facts (createBooking_ok_validate hok)
    have hover : overlapConflict s.bookings (propsOf req.property) req = true := by
      rw [overlapConflict, List.any_eq_true]
      exact ⟨b, hb, by simp [hp, hact, h1, h2]⟩
    rw [hfacts.2.2.1] at hover
    exact Bool.noConfusion hover
  refine ⟨?_, ?_, ?_, hreject⟩
  · intro req ruser today
    simp only [applyOp]
    rcases hc : createBooking cat (propsOf req.property) phoneInfo s.bookings s.blocked
        req ruser today s.nextId with e | nb
    · exact hinv
    · have hval := createBooking_ok_validate hc
      have hfacts := validate_ok_facts hval
      have hsave : bookingSave cat (propsOf req.property) phoneInfo
          (initialBooking req ruser s.nextId) = Except.ok nb := by
        unfold createBooking at hc
        rw [hval] at hc
        exact hc
      have hpres := bookingSave_preserves hsave
      have hci : nb.check_in = req.check_in := hpres.1
      have hco : nb.check_out = req.check_out := hpres.2.1
      have hpr : nb.property = req.property := hpres.2.2.1
      have hst : nb.status = BookingStatus.pending := hpres.2.2.2.1
      intro a ha b hb hacta hactb hprop hov1 hov2
      have hnbover : ∀ x ∈ s.bookings, activeStatus x = true → x.property = req.property →
          x.check_in < req.check_out → req.check_in < x.check_out → False := by
        intro x hx hxact hxp hx1 hx2
        have : overlapConflict s.bookings (propsOf req.property) req = true := by
          rw [overlapConflict, List.any_eq_true]
          refine ⟨x, hx, ?_⟩
          simp [hxact, hx1, hx2, hxp, hprops req.property]
        rw [hfacts.2.2.1] at this
        exact Bool.noConfusion this
      rcases List.mem_append.mp ha with ha' | ha' <;>
        rcases List.mem_append.mp hb with hb' | hb'
      · exact hinv a ha' b hb' hacta hactb hprop hov1 hov2
      · have hbnb : b = nb := by simpa using hb'
        subst hbnb
        exact absurd trivial (fun _ => hnbover a ha' hacta
          (by rw [← hpr]; exact hprop) (by rw [← hco]; exact hov1)
          (by rw [← hci]; exact hov2))
      · have hanb : a = nb := by simpa using ha'
        subst hanb
        exact absurd trivial (fun _ => hnbover b hb' hactb
          (by rw [← hpr, hprop]) (by rw [← hco]; exact hov2)
          (by rw [← hci]; exact hov1))
      · have hanb : a = nb := by simpa using ha'
        have hbnb : b = nb := by simpa using hb'
        rw [hanb, hbnb]
  · intro bid hactive
    simp only [applyOp]
    intro a ha b hb hacta hactb hprop hov1 hov2
    obtain ⟨a0, ha0, rfl⟩ := List.mem_map.mp ha
    obtain ⟨b0, hb0, rfl⟩ := List.mem_map.mp hb
    by_cases hae : (a0.id == bid) = true <;> by_cases hbe : (b0.id == bid) = true <;>
      simp only [hae, hbe, if_true, if_false] at hacta hactb hprop hov1 hov2 ⊢
    · have := hinv a0 ha0 b0 hb0 (hactive a0 ha0 (by simpa using hae))
        (hactive b0 hb0 (by simpa using hbe)) hprop hov1 hov2
      simpa using this
    · have := hinv a0 ha0 b0 hb0 (hactive a0 ha0 (by simpa using hae)) hactb hprop hov1 hov2
      simpa using this
    · have := hinv a0 ha0 b0 hb0 hacta (hactive b0 hb0 (by simpa using hbe)) hprop hov1 hov2
      simpa using this
    · exact hinv a0 ha0 b0 hb0 hacta hactb hprop hov1 hov2
  · intro bid
    simp only [applyOp]
    intro a ha b hb hacta hactb hprop hov1 hov2
    obtain ⟨a0, ha0, rfl⟩ := List.mem_map.mp ha
    obtain ⟨b0, hb0, rfl⟩ := List.mem_map.mp hb
    by_cases hae : (a0.id == bid && a0.status != BookingStatus.cancelled &&
        a0.status != BookingStatus.completed) = true <;>
      by_cases hbe : (b0.id == bid && b0.status != BookingStatus.cancelled &&
        b0.status != BookingStatus.completed) = true <;>
      simp only [hae, hbe, if_true, if_false] at hacta hactb hprop hov1 hov2 ⊢
    · exact absurd hacta (by simp [activeStatus])
    · exact absurd hacta (by simp [activeStatus])
    · exact absurd hactb (by simp [activeStatus])
    · exact hinv a0 ha0 b0 hb0 hacta hactb hprop hov1 hov2

instance noDoubleBookingDecidable (l : List Booking) : Decidable (NoDoubleBooking l) :=
  inferInstanceAs (Decidable (∀ a ∈ l, ∀ b ∈ l, activeStatus a = true →
    activeStatus b = true → a.property = b.property → a.check_in < b.check_out →
    b.check_in < a.check_out → a.id = b.id))

/-- Request overlapping `sampleBooking`'s stay. -/
def overlapRequest : BookingRequest :=
  { demoRequest with check_in := 7, check_out := 9 }

/-- Witness for C1 (amended): with `sampleBooking` occupying [5,10), the
overlapping request [7,9) cannot be created. -/
theorem no_double_booking_preserved_witness :
    createBooking [] { demoProperty with id := 1 } demoOracle [sampleBooking] []
        overlapRequest none 0 1 ≠ Except.ok sampleBooking :=
  (no_double_booking_preserved [] (fun p => { demoProperty with id := p }) demoOracle
      { bookings := [sampleBooking], blocked := [], nextId := 1 }
      (fun _ => rfl) (by decide)).2.2.2 overlapRequest none 0 1 sampleBooking
    ⟨sampleBooking, by decide, by decide, by decide, by decide, by decide⟩

/-- Second reservation, initially on the disjoint range [20,25). -/
def pendingLaterBooking : Booking :=
  { sampleBooking with
      id := 1
      status := BookingStatus.pending
      check_in := 20
      check_out := 25 }

def conflictState : SysState :=
  { bookings := [sampleBooking, pendingLaterBooking], blocked := [], nextId := 2 }

/-- C1 counterexample: the booking-update operation (`BookingDetailView`
PUT/PATCH through `BookingSerializer`, which validates no date conflicts)
moves the pending reservation onto [7,12), overlapping the confirmed
reservation on [5,10) — so the invariant is not preserved by every
state-changing operation of the system. -/
theorem no_double_booking_counterexample :
    NoDoubleBooking conflictState.bookings ∧
    ¬ NoDoubleBooking (applyOp [] (fun p => { demoProperty with id := p }) demoOracle
        conflictState (Op.updateDates 1 7 12)).bookings := by
  constructor
  · decide
  · decide

end Kifaru
